import Mathlib

set_option maxHeartbeats 1000000

/-! Verification development for the VisionSleuth detection post-processing
pipeline: threat interaction analysis (threat_analyzer.py), dangerous-object
classification and confidence calibration (crime_detection_model.py),
tracking/smoothing and risk scoring (video_processor.py), and forensic
report generation (forensic_report_generator.py).  Python floats are
modelled as exact rationals; the transcendental calibration path is
modelled over the reals. -/

/-- Python str.lower, character by character (the pipeline only lower-cases
ASCII class names). -/
def strLower (s : String) : String := ⟨s.data.map Char.toLower⟩

/-- Axis-aligned bounding box, the Python list [x1, y1, x2, y2]. -/
structure Box where
  x1 : ℚ
  y1 : ℚ
  x2 : ℚ
  y2 : ℚ
deriving DecidableEq

namespace ThreatAnalyzer

/-- ThreatAnalyzer.__init__: lethal weapon class names. -/
def lethal_weapons : List String := ["handgun", "rifle", "knife", "gun", "weapon", "pistol"]

/-- ThreatAnalyzer.__init__: hard-negative (non-threat) class names. -/
def non_threat_objects : List String := ["cell phone", "smartphone", "remote", "drill"]

/-- One detection dict as consumed and produced by ThreatAnalyzer.analyze.
Option models a possibly-absent dict key; for associated_person_id the
outer Option models key presence and the inner Option a possibly-None
track id (the code stores person.get('track_id'), which may be None). -/
structure Det where
  class_name : String
  confidence : ℚ
  bbox : Box
  track_id : Option Int := none
  alert_level : Option String := none
  event_type : Option String := none
  associated_person_id : Option (Option Int) := none
deriving DecidableEq

/-- ThreatAnalyzer._calculate_iou: intersection over union, returning 0
when the union area is not positive. -/
def calculate_iou (boxA boxB : Box) : ℚ :=
  let xA := max boxA.x1 boxB.x1
  let yA := max boxA.y1 boxB.y1
  let xB := min boxA.x2 boxB.x2
  let yB := min boxA.y2 boxB.y2
  let interArea := max 0 (xB - xA) * max 0 (yB - yA)
  let areaA := (boxA.x2 - boxA.x1) * (boxA.y2 - boxA.y1)
  let areaB := (boxB.x2 - boxB.x1) * (boxB.y2 - boxB.y1)
  if areaA + areaB - interArea ≤ 0 then 0
  else interArea / (areaA + areaB - interArea)

/-- ThreatAnalyzer.analyze.  persons/threats/hard_negatives are filtered by
lower-cased class name; each threat is dropped when some hard negative
overlaps it with IoU > 0.5 and strictly greater confidence (the loop with
break is List.any), otherwise enriched from the first person whose IoU
with it strictly exceeds iouThreshold (the loop with break is List.find?),
or marked WARNING when there is none. -/
def analyze (iouThreshold : ℚ) (detections : List Det) : List Det :=
  let persons := detections.filter
    (fun d => ["person", "people"].contains (strLower d.class_name))
  let threats := detections.filter
    (fun d => lethal_weapons.contains (strLower d.class_name))
  let hard_negatives := detections.filter
    (fun d => non_threat_objects.contains (strLower d.class_name))
  threats.filterMap (fun threat =>
    if hard_negatives.any (fun neg =>
        decide (calculate_iou threat.bbox neg.bbox > 1/2)
          && decide (neg.confidence > threat.confidence))
    then none
    else
      match persons.find? (fun person =>
          decide (calculate_iou threat.bbox person.bbox > iouThreshold)) with
      | some person =>
          some { threat with alert_level := some "CRITICAL",
                             event_type := some "Armed Suspect Alert",
                             associated_person_id := some person.track_id }
      | none =>
          some { threat with alert_level := some "WARNING",
                             event_type := some "Unattended Weapon Warning" })

/-- The claim C1 transition system, written from the spec's words: for each
lethal-weapon detection, exclusion when some hard negative overlaps with
IoU > 0.5 and strictly greater confidence; else CRITICAL from the first
person whose IoU strictly exceeds the interaction threshold; else WARNING. -/
def analyzeClaim (iouThreshold : ℚ) (detections : List Det) : List Det :=
  (detections.filter
      (fun d => lethal_weapons.contains (strLower d.class_name))).filterMap
    (fun weapon =>
      if (detections.filter
            (fun d => non_threat_objects.contains (strLower d.class_name))).any
          (fun neg => decide (calculate_iou weapon.bbox neg.bbox > 1/2
            ∧ weapon.confidence < neg.confidence))
      then none
      else
        match (detections.filter
            (fun d => ["person", "people"].contains (strLower d.class_name))).find?
            (fun person =>
              decide (iouThreshold < calculate_iou weapon.bbox person.bbox)) with
        | some person =>
            some { weapon with alert_level := some "CRITICAL",
                               event_type := some "Armed Suspect Alert",
                               associated_person_id := some person.track_id }
        | none =>
            some { weapon with alert_level := some "WARNING",
                               event_type := some "Unattended Weapon Warning" })

/-- Concrete frame for the C2 counterexample: an overlapping person with no
track id and a knife. -/
def c2Input : List Det :=
  [{ class_name := "person", confidence := 9/10, bbox := ⟨0, 0, 10, 10⟩ },
   { class_name := "knife", confidence := 8/10, bbox := ⟨2, 2, 8, 8⟩ }]

/-- Concrete frame for the C2 witness: same scene, person tracked as id 7. -/
def c2TrackedInput : List Det :=
  [{ class_name := "person", confidence := 9/10, bbox := ⟨0, 0, 10, 10⟩,
     track_id := some 7 },
   { class_name := "knife", confidence := 8/10, bbox := ⟨2, 2, 8, 8⟩ }]

/-- The detection analyze emits for c2TrackedInput (used by the C2 witness). -/
def c2OutputDet : Det :=
  { class_name := "knife", confidence := 8/10, bbox := ⟨2, 2, 8, 8⟩,
    alert_level := some "CRITICAL", event_type := some "Armed Suspect Alert",
    associated_person_id := some (some 7) }

end ThreatAnalyzer

namespace CrimeModel

/-- Whether needle occurs as a contiguous substring of hay (Python `in`). -/
def charsContain (needle hay : List Char) : Bool :=
  match hay with
  | [] => needle.isEmpty
  | _ :: t => needle.isPrefixOf hay || charsContain needle t

/-- Python `needle in hay` on strings. -/
def strContains (hay needle : String) : Bool := charsContain needle.data hay.data

/-- One entry of the knife_false_positives table.  The source's
max_area_ratio / min_area_ratio keys are the two optional bounds. -/
structure FPConfig where
  min_confidence : ℚ
  aspect_ratio_range : ℚ × ℚ
  max_area_bound : Option ℚ := none
  min_area_bound : Option ℚ := none
deriving DecidableEq

/-- CrimeDetectionModel._map_to_dangerous_object: the knife false-positive
table (class → min confidence, aspect-ratio range, area bounds). -/
def knife_false_positives : List (String × FPConfig) :=
  [("toothbrush", { min_confidence := 55/100, aspect_ratio_range := (25/100, 75/100),
                    max_area_bound := some (2/100) }),
   ("scissors", { min_confidence := 45/100, aspect_ratio_range := (35/100, 85/100),
                  max_area_bound := some (3/100) }),
   ("baseball_bat", { min_confidence := 35/100, aspect_ratio_range := (8/100, 35/100),
                      min_area_bound := some (1/100) }),
   ("remote", { min_confidence := 5/10, aspect_ratio_range := (4/10, 16/10),
                max_area_bound := some (15/1000) }),
   ("cell phone", { min_confidence := 5/10, aspect_ratio_range := (5/10, 2),
                    max_area_bound := some (2/100) }),
   ("hair drier", { min_confidence := 5/10, aspect_ratio_range := (3/10, 8/10),
                    max_area_bound := some (2/100) })]

/-- Lookup in the knife false-positive table (Python dict membership plus
indexing; keys are already lower case). -/
def lookupFP (key : String) : Option FPConfig :=
  match knife_false_positives.find? (fun p => p.1 == key) with
  | some p => some p.2
  | none => none

/-- CrimeDetectionModel.__init__: dangerous object mapping, in insertion
order (Python dicts preserve it). -/
def dangerous_objects : List (String × List String) :=
  [("knife", ["knife", "blade", "dagger", "sword", "cutting", "sharp", "razor"]),
   ("gun", ["gun", "pistol", "rifle", "firearm", "weapon", "handgun", "revolver",
            "shotgun", "rifle", "machine gun", "submachine", "glock", "beretta"]),
   ("weapon", ["weapon", "gun", "knife", "pistol", "rifle", "firearm", "blade",
               "dagger", "sword", "handgun", "revolver", "stick", "pipe"]),
   ("scissors", ["scissors", "shears", "scissor"]),
   ("bottle", ["bottle", "glass_bottle", "broken_bottle", "wine bottle", "beer bottle"]),
   ("hammer", ["hammer", "mallet", "sledgehammer", "tool"]),
   ("crowbar", ["crowbar", "pry_bar", "prybar", "wrecking bar"]),
   ("baseball_bat", ["baseball_bat", "bat", "club", "baseball bat", "cricket bat"]),
   ("axe", ["axe", "hatchet", "tomahawk"]),
   ("machete", ["machete", "cleaver", "chopper"])]

/-- _map_to_dangerous_object: generic weapon keywords. -/
def weapon_keywords : List String :=
  ["gun", "pistol", "rifle", "firearm", "weapon", "knife", "blade", "sword"]

/-- Which return statement of _map_to_dangerous_object produced the result:
the two knife-false-positive suppression returns (at the geometry match and
after it), the dangerous-mapping return, the weapon-keyword return, or the
final fallback return of the raw class name. -/
inductive MapStep
  | suppressedGeom
  | suppressedConf
  | mapped (t : String)
  | keyword
  | fallback
deriving DecidableEq

/-- Result of _map_to_dangerous_object together with the return site. -/
structure MapResult where
  result : String
  step : MapStep
deriving DecidableEq

/-- The per-variation skip inside the dangerous scan: a known knife false
positive with confidence at or above its min_confidence is not mapped to
knife ("continue"). -/
def knifeSkip (class_name_lower : String) (dangerous_type : String) (confidence : ℚ) : Bool :=
  match lookupFP class_name_lower with
  | some fp_config => dangerous_type == "knife" && decide (fp_config.min_confidence ≤ confidence)
  | none => false

/-- The nested for-loops over dangerous_objects and their variations,
returning the first dangerous type whose variation occurs in the
lower-cased class name and is not skipped. -/
def scanDangerous (class_name_lower : String) (confidence : ℚ) : Option String :=
  dangerous_objects.findSome? (fun p =>
    p.2.findSome? (fun variation =>
      if strContains class_name_lower variation then
        if knifeSkip class_name_lower p.1 confidence then none else some p.1
      else none))

/-- The weapon-keyword loop, returning "weapon" for the first keyword found
in the lower-cased class name and not skipped. -/
def scanKeywords (class_name_lower : String) (confidence : ℚ) : Option String :=
  weapon_keywords.findSome? (fun keyword =>
    if strContains class_name_lower keyword then
      if knifeSkip class_name_lower keyword confidence then none else some "weapon"
    else none)

/-- The part of _map_to_dangerous_object after the false-positive block:
dangerous scan, then keyword scan, then the fallback `return class_name`
(note: the original class name, not lower-cased). -/
def scanResult (class_name class_name_lower : String) (confidence : ℚ) : MapResult :=
  match scanDangerous class_name_lower confidence with
  | some t => { result := t, step := .mapped t }
  | none =>
    match scanKeywords class_name_lower confidence with
    | some w => { result := w, step := .keyword }
    | none => { result := class_name, step := .fallback }

/-- CrimeDetectionModel._map_to_dangerous_object, with the produced return
site recorded.  The knife-false-positive block runs first: with confidence
at or above the class's min_confidence it returns the lower-cased class
either at the geometry match (aspect ratio in range and area bounds
satisfied, frame area fixed at 640*640) or unconditionally right after the
geometry block; below min_confidence control falls through to the scans. -/
def map_to_dangerous_object (class_name : String) (confidence : ℚ)
    (bbox : Option (List ℚ)) : MapResult :=
  let class_name_lower := strLower class_name
  match lookupFP class_name_lower with
  | some fp_config =>
    if fp_config.min_confidence ≤ confidence then
      match bbox with
      | some b =>
        if 4 ≤ b.length then
          let width := b.getD 2 0 - b.getD 0 0
          let height := b.getD 3 0 - b.getD 1 0
          if decide (0 < width) && decide (0 < height) then
            let aspect := height / width
            let frame_area : ℚ := 640 * 640
            let bbox_area := width * height
            let areaFrac := if 0 < frame_area then bbox_area / frame_area else 0
            let ar_match := decide (fp_config.aspect_ratio_range.1 ≤ aspect)
              && decide (aspect ≤ fp_config.aspect_ratio_range.2)
            let area_match :=
              (match fp_config.max_area_bound with
               | some m => decide (areaFrac ≤ m)
               | none => true)
              && (match fp_config.min_area_bound with
                  | some m => decide (m ≤ areaFrac)
                  | none => true)
            if ar_match && area_match then
              { result := class_name_lower, step := .suppressedGeom }
            else { result := class_name_lower, step := .suppressedConf }
          else { result := class_name_lower, step := .suppressedConf }
        else { result := class_name_lower, step := .suppressedConf }
      | none => { result := class_name_lower, step := .suppressedConf }
    else scanResult class_name class_name_lower confidence
  | none => scanResult class_name class_name_lower confidence

/-- True when _map_to_dangerous_object returned from one of the two knife
false-positive suppression returns. -/
def suppressedB (r : MapResult) : Bool :=
  match r.step with
  | .suppressedGeom => true
  | .suppressedConf => true
  | _ => false

/-- The C3 claim's stated suppression condition, written from the spec's
words: confidence at least min_confidence AND (with a bbox) aspect ratio
inside the configured range AND all configured area-ratio bounds satisfied
against the nominal 640*640 frame area; with no bbox, confidence alone. -/
def c3ClaimCondition (class_name : String) (confidence : ℚ)
    (bbox : Option (List ℚ)) : Bool :=
  match lookupFP (strLower class_name) with
  | none => false
  | some fp_config =>
    match bbox with
    | none => decide (fp_config.min_confidence ≤ confidence)
    | some b =>
      let width := b.getD 2 0 - b.getD 0 0
      let height := b.getD 3 0 - b.getD 1 0
      let aspect := height / width
      let areaFrac := width * height / (640 * 640)
      decide (fp_config.min_confidence ≤ confidence)
        && (decide (fp_config.aspect_ratio_range.1 ≤ aspect)
            && decide (aspect ≤ fp_config.aspect_ratio_range.2))
        && ((match fp_config.max_area_bound with
             | some m => decide (areaFrac ≤ m)
             | none => true)
            && (match fp_config.min_area_bound with
                | some m => decide (m ≤ areaFrac)
                | none => true))

/-- The C4 claim's classification for labels that are not suppressed,
written from the spec's words: first canonical dangerous category whose
alias substring occurs in the lower-cased label, else "weapon" when a
generic weapon keyword occurs, else the label unchanged (the code keeps
the original casing here). -/
def classifyClaim (class_name : String) : String :=
  let class_name_lower := strLower class_name
  match dangerous_objects.findSome? (fun p =>
      if p.2.any (fun variation => strContains class_name_lower variation)
      then some p.1 else none) with
  | some t => t
  | none =>
    if weapon_keywords.any (fun keyword => strContains class_name_lower keyword)
    then "weapon" else class_name

end CrimeModel

namespace Calib

/-- The closed form of _calibrate_conf's try-block when no numeric error
occurs: temperature scaling sigmoid(logit(conf)/max(1e-6, T)) with the
edge policy conf ≤ 0 ↦ 0 and conf ≥ 1 ↦ 1 and the final clamp to [0, 1]
(logit = log(conf/(1-conf)) and scaled = 1/(1+exp(-logit/T')) inlined).
This is only the success path: the function the code computes, overflow
fallback included, is calibrate_conf below, and calibrate_body ties the
two together (an ok body result always equals this formula). -/
noncomputable def calibrate_formula (temp_scale conf : ℝ) : ℝ :=
  if conf ≤ 0 then 0
  else if 1 ≤ conf then 1
  else max 0 (min 1 (1 / (1 + Real.exp
    (-(Real.log (conf / (1 - conf))) / max (1/1000000) temp_scale))))

/-- Division with Python's ZeroDivisionError made explicit. -/
noncomputable def rdiv (a b : ℝ) : Except String ℝ :=
  if b = 0 then Except.error "ZeroDivisionError: float division by zero"
  else Except.ok (a / b)

/-- math.log with Python's domain error made explicit. -/
noncomputable def rlog (x : ℝ) : Except String ℝ :=
  if x ≤ 0 then Except.error "ValueError: math domain error"
  else Except.ok (Real.log x)

/-- math.exp with Python's float overflow made explicit and abstracted: an
argument of 710 or more overflows (the IEEE-754 double bound is about
709.78). -/
noncomputable def rexp (x : ℝ) : Except String ℝ :=
  if 710 ≤ x then Except.error "OverflowError: math range error"
  else Except.ok (Real.exp x)

/-- The try-block of _calibrate_conf with every fallible numeric operation
explicit: edge checks, conf/(1-conf), math.log, the division by
max(1e-6, temp_scale), math.exp, and 1/(1+exp(...)), then the clamp. -/
noncomputable def calibrate_body (temp_scale conf : ℝ) : Except String ℝ :=
  if conf ≤ 0 then Except.ok 0
  else if 1 ≤ conf then Except.ok 1
  else
    match rdiv conf (1 - conf) with
    | Except.error e => Except.error e
    | Except.ok q =>
      match rlog q with
      | Except.error e => Except.error e
      | Except.ok logit =>
        match rdiv (-logit) (max (1/1000000) temp_scale) with
        | Except.error e => Except.error e
        | Except.ok sc =>
          match rexp sc with
          | Except.error e => Except.error e
          | Except.ok ex =>
            match rdiv 1 (1 + ex) with
            | Except.error e => Except.error e
            | Except.ok scaled => Except.ok (max 0 (min 1 scaled))

/-- The except-branch of _calibrate_conf: linear scaling
conf / max(1e-6, temp_scale) clamped to [0, 1], with its one division
explicit. -/
noncomputable def calibrate_fallback (temp_scale conf : ℝ) : Except String ℝ :=
  match rdiv conf (max (1/1000000) temp_scale) with
  | Except.error e => Except.error e
  | Except.ok q => Except.ok (max 0 (min 1 q))

/-- _calibrate_conf as try/except: the body's result, or on any failure the
fallback (whose own failure would propagate to the caller). -/
noncomputable def calibrate_conf (temp_scale conf : ℝ) : Except String ℝ :=
  match calibrate_body temp_scale conf with
  | Except.ok v => Except.ok v
  | Except.error _ => calibrate_fallback temp_scale conf

end Calib

namespace VideoProc

/-- video_processor._iou (module level).  Unlike the threat analyzer's IoU,
box side lengths are clamped at 0 before the area products; a non-positive
union yields 0. -/
def iou (box_a box_b : Box) : ℚ :=
  let x1 := max box_a.x1 box_b.x1
  let y1 := max box_a.y1 box_b.y1
  let x2 := min box_a.x2 box_b.x2
  let y2 := min box_a.y2 box_b.y2
  let inter := max 0 (x2 - x1) * max 0 (y2 - y1)
  let area_a := max 0 (box_a.x2 - box_a.x1) * max 0 (box_a.y2 - box_a.y1)
  let area_b := max 0 (box_b.x2 - box_b.x1) * max 0 (box_b.y2 - box_b.y1)
  let denom := area_a + area_b - inter
  if 0 < denom then inter / denom else 0

/-- One entry of VideoProcessor.previous_detections: the {bbox, confidence,
track_id} projection written at the end of process_frame.  A none track_id
models an absent key. -/
structure PrevDet where
  bbox : Box
  confidence : ℚ
  track_id : Option Int
deriving DecidableEq

/-- A current detection as read by _smooth_confidence: bbox, confidence
(det.get("confidence", 0.0) is written back, so the field is kept plain),
and a possibly-absent track id. -/
structure SDet where
  bbox : Box
  confidence : ℚ
  track_id : Option Int := none
deriving DecidableEq

/-- The best-match scan of _smooth_confidence: best_iou starts at 0.0 and
best_idx at -1 (modelled as a none candidate); a strictly larger IoU
replaces the candidate, so ties keep the earliest previous detection. -/
def bestPrev (det_bbox : Box) (previous_detections : List PrevDet) : ℚ × Option PrevDet :=
  previous_detections.foldl
    (fun (acc : ℚ × Option PrevDet) prev =>
      if iou det_bbox prev.bbox > acc.1 then (iou det_bbox prev.bbox, some prev) else acc)
    (0, none)

/-- The loop body of _smooth_confidence for one current detection: when a
best previous match exists with IoU at or above the match threshold, the
confidence becomes the EMA alpha*prev + (1-alpha)*current and the previous
track_id is carried over when its key is present; otherwise the detection
is appended unmodified. -/
def smooth_one (smoothing_alpha iou_match_threshold : ℚ)
    (previous_detections : List PrevDet) (det : SDet) : SDet :=
  match bestPrev det.bbox previous_detections with
  | (best_iou, some prev) =>
      if best_iou ≥ iou_match_threshold then
        { det with
            confidence := smoothing_alpha * prev.confidence
              + (1 - smoothing_alpha) * det.confidence,
            track_id := match prev.track_id with
                        | some t => some t
                        | none => det.track_id }
      else det
  | (_, none) => det

/-- VideoProcessor._smooth_confidence: identity on an empty previous list,
otherwise the per-detection smoothing applied to each current detection
(the used_prev bookkeeping of the source is written but never read). -/
def smooth_confidence (smoothing_alpha iou_match_threshold : ℚ)
    (previous_detections : List PrevDet) (current : List SDet) : List SDet :=
  if previous_detections.isEmpty then current
  else current.map (smooth_one smoothing_alpha iou_match_threshold previous_detections)

/-- A detection dict coming out of the model in process_frame; every field
is read with .get and a default, so all are optional (original_class and
risk_level are read by no VideoProcessor code and are omitted). -/
structure MDet where
  class_name : Option String := none
  confidence : Option ℚ := none
  bbox : Option Box := none
  track_id : Option Int := none
deriving DecidableEq

/-- VideoProcessor.__init__: the default per-class risk weights. -/
def default_weights : List (String × ℚ) :=
  [("gun", 1), ("knife", 9/10), ("weapon", 95/100), ("pistol", 1), ("rifle", 1),
   ("firearm", 1), ("machete", 95/100), ("axe", 9/10), ("scissors", 5/10),
   ("bottle", 3/10), ("hammer", 5/10), ("crowbar", 6/10), ("baseball_bat", 7/10)]

/-- Python dict .get(class_name, 0.2) over the weight table. -/
def lookupWeight (class_risk_weight : List (String × ℚ)) (k : String) : ℚ :=
  match class_risk_weight.find? (fun p => p.1 == k) with
  | some p => p.2
  | none => 2/10

/-- VideoProcessor._assess_risk: base weight 0.4 plus the class weight
(looked up on the lower-cased class, default 0.2) plus 0.3 times the area
fraction min(1, area/max(1, w*h)) plus 0.3 times the confidence, clamped
to [0, 1].  frame_shape is (height, width, channels). -/
def assess_risk (class_risk_weight : List (String × ℚ)) (det : MDet)
    (frame_h frame_w : ℕ) : ℚ :=
  let class_name := strLower (det.class_name.getD "")
  let conf := det.confidence.getD 0
  let bbox := det.bbox.getD ⟨0, 0, 0, 0⟩
  let area := max 0 (bbox.x2 - bbox.x1) * max 0 (bbox.y2 - bbox.y1)
  let frame_area := max 1 ((frame_w : ℚ) * (frame_h : ℚ))
  let base_w : ℚ := 4/10
  let w_class := lookupWeight class_risk_weight class_name
  let raw_score := base_w + w_class * 1 + (3/10) * (min 1 (area / frame_area))
    + (3/10) * conf
  max 0 (min 1 raw_score)

/-- One enriched output detection of process_frame (the source's "type" key
is typeName here; "type" is reserved in Lean). -/
structure EDet where
  typeName : String
  class_name : String
  confidence : ℚ
  bbox : Box
  risk_score : ℚ
  track_id : Int
deriving DecidableEq

/-- One suspicious_interactions entry (its "type" key is always the string
"high_risk_object_detected"). -/
structure SuspiciousInteraction where
  count : ℕ
  max_risk : ℚ
deriving DecidableEq

/-- The per-session state of VideoProcessor read by process_frame. -/
structure VPState where
  previous_detections : List PrevDet
  smoothing_alpha : ℚ
  class_risk_weight : List (String × ℚ)
  iou_match_threshold : ℚ
deriving DecidableEq

/-- The value process_frame returns. -/
structure FrameResult where
  detections : List EDet
  suspicious_interactions : List SuspiciousInteraction
  confidence : ℚ
deriving DecidableEq

/-- VideoProcessor.process_frame in the default video_upload mode (the
live_analysis confidence adjustment is toggled off), parametrised by the
model's detections for the frame: each detection is enriched with a risk
score and defaults, high-risk detections (risk ≥ 0.8) are reported, the
previous_detections state is overwritten with the enriched projections,
and the mean confidence is returned.  _smooth_confidence is not called
anywhere in this flow. -/
def process_frame (st : VPState) (model_detections : List MDet)
    (frame_h frame_w : ℕ) : FrameResult × VPState :=
  let enriched := model_detections.map (fun det =>
    ({ typeName := det.class_name.getD "unknown",
       class_name := det.class_name.getD "unknown",
       confidence := det.confidence.getD 0,
       bbox := det.bbox.getD ⟨0, 0, 0, 0⟩,
       risk_score := assess_risk st.class_risk_weight det frame_h frame_w,
       track_id := det.track_id.getD 0 } : EDet))
  let high_risk := enriched.filter (fun d => decide (d.risk_score ≥ 8/10))
  let suspicious_interactions :=
    if high_risk.isEmpty then ([] : List SuspiciousInteraction)
    else [{ count := high_risk.length,
            max_risk := (high_risk.map (fun d => d.risk_score)).foldl max 0 }]
  let new_previous := enriched.map (fun d =>
    ({ bbox := d.bbox, confidence := d.confidence,
       track_id := some d.track_id } : PrevDet))
  let avg_conf := if enriched.isEmpty then 0
    else (enriched.map (fun d => d.confidence)).sum / enriched.length
  ({ detections := enriched,
     suspicious_interactions := suspicious_interactions,
     confidence := avg_conf },
   { st with previous_detections := new_previous })

/-- The risk formula as the claim states it: clamp01 of 0.4 + class weight
+ 0.3 * area ratio + 0.3 * confidence, with the area ratio clamped to
[0, 1] against max(1, w*h). -/
def riskClaimFormula (det : MDet) (frame_h frame_w : ℕ) : ℚ :=
  let c := strLower (det.class_name.getD "")
  let conf := det.confidence.getD 0
  let b := det.bbox.getD ⟨0, 0, 0, 0⟩
  let areaFrac := min 1 (max 0
    ((max 0 (b.x2 - b.x1) * max 0 (b.y2 - b.y1)) / max 1 ((frame_w : ℚ) * (frame_h : ℚ))))
  max 0 (min 1 (4/10 + lookupWeight default_weights c
    + (3/10) * areaFrac + (3/10) * conf))

/-- A full-frame maximum-confidence gun detection (the claim's example). -/
def c6GunDet : MDet :=
  { class_name := some "gun", confidence := some 1, bbox := some ⟨0, 0, 100, 100⟩ }

/-- Initial per-session state with all the source defaults (previous
detections empty, alpha 0.6, default weights, match threshold 0.3). -/
def initState : VPState :=
  { previous_detections := [], smoothing_alpha := 6/10,
    class_risk_weight := default_weights, iou_match_threshold := 3/10 }

/-- Frame N detection of the claim's tracker example: knife, confidence
0.8, track id 5. -/
def c7FrameOneDet : MDet :=
  { class_name := some "knife", confidence := some (8/10),
    bbox := some ⟨0, 0, 10, 10⟩, track_id := some 5 }

/-- Frame N+1 detection at the same bbox (IoU 1 ≥ 0.3): confidence 0.4,
model-assigned track id 7. -/
def c7FrameTwoDet : MDet :=
  { class_name := some "knife", confidence := some (4/10),
    bbox := some ⟨0, 0, 10, 10⟩, track_id := some 7 }

/-- A benign zero-confidence zero-area detection (C10 witness input). -/
def c10BenignDet : MDet :=
  { class_name := some "book", confidence := some 0, bbox := some ⟨0, 0, 0, 0⟩ }

/-- The previous-frame projection of the claim's tracker example (C7
witness input). -/
def c7PrevDet : PrevDet := { bbox := ⟨0, 0, 10, 10⟩, confidence := 8/10, track_id := some 5 }

/-- The current-frame detection of the claim's tracker example (C7 witness
input). -/
def c7CurDet : SDet := { bbox := ⟨0, 0, 10, 10⟩, confidence := 4/10, track_id := some 7 }

end VideoProc

namespace Forensic

/-- A dynamically typed numeric field value: a number, or a non-numeric
string on which Python's float() raises. -/
inductive PyVal
  | num (q : ℚ)
  | str (s : String)
deriving DecidableEq

/-- float(v), with its ValueError explicit. -/
def pyFloat (v : PyVal) : Except String ℚ :=
  match v with
  | .num q => Except.ok q
  | .str s => Except.error ("could not convert string to float: " ++ s)

/-- The dict keys _normalize_detections reads (each possibly absent; the
source's "type" key is typeField here). -/
structure RawFields where
  label : Option String := none
  typeField : Option String := none
  class_name : Option String := none
  confidence : Option PyVal := none
  bbox : Option (List ℚ) := none
  risk_level : Option String := none
  risk_score : Option PyVal := none
deriving DecidableEq

/-- One entry of the raw detection batch: either not a dict (skipped by
normalization) or a record of optional fields. -/
inductive RawDet
  | notDict
  | record (fields : RawFields)
deriving DecidableEq

/-- A normalized detection as produced by _normalize_detections (the
pass-through of unknown extra keys is dropped; no section reads them). -/
structure NDet where
  class_name : String
  confidence : ℚ
  bbox : List ℚ
  risk_level : String
  risk_score : ℚ
deriving DecidableEq

/-- Python `a or b` on optional strings: an empty string is falsy. -/
def pyOr (a b : Option String) : Option String :=
  match a with
  | some s => if s = "" then b else some s
  | none => b

/-- ForensicReportGenerator._normalize_detections: skips non-dict entries,
folds label/type/class_name into class_name with default "unknown",
converts confidence and risk_score with float() (whose ValueError
propagates to generate_report's handler), and defaults bbox and
risk_level. -/
def normalize_detections (detections : List RawDet) : Except String (List NDet) :=
  match detections with
  | [] => Except.ok []
  | RawDet.notDict :: rest => normalize_detections rest
  | RawDet.record f :: rest =>
    let class_name :=
      (pyOr f.label (pyOr f.typeField (pyOr f.class_name (some "unknown")))).getD "unknown"
    match pyFloat (f.confidence.getD (PyVal.num 0)) with
    | Except.error e => Except.error e
    | Except.ok conf =>
      match pyFloat (f.risk_score.getD (PyVal.num 0)) with
      | Except.error e => Except.error e
      | Except.ok rs =>
        match normalize_detections rest with
        | Except.error e => Except.error e
        | Except.ok tail =>
          Except.ok ({ class_name := class_name, confidence := conf,
                       bbox := f.bbox.getD [0, 0, 0, 0],
                       risk_level := f.risk_level.getD "Unknown",
                       risk_score := rs } :: tail)

/-- Fixed-point decimal rendering of a rational with d decimals (an exact
abstraction of Python's float format specifier, rounding half up). -/
def fmtQ (d : ℕ) (q : ℚ) : String :=
  let n : Int := round (q * ((10:ℚ) ^ d))
  let a : ℕ := n.natAbs
  let ip := a / 10 ^ d
  let fp := a % 10 ^ d
  let fpStr := toString fp
  let fpPad := String.mk (List.replicate (d - fpStr.length) '0') ++ fpStr
  (if n < 0 then "-" else "") ++ toString ip
    ++ (if d = 0 then "" else "." ++ fpPad)

/-- Decimal rendering of math.sqrt of a nonnegative rational at one
decimal, via integer square root (an abstraction of float sqrt
formatting; only report text depends on it). -/
def fmtSqrt1 (q : ℚ) : String :=
  fmtQ 1 ((Nat.sqrt (Int.toNat ⌊q * 100⌋) : ℚ) / 10)

/-- ForensicReportGenerator._get_bbox_center. -/
def bbox_center (bbox : List ℚ) : ℚ × ℚ :=
  if bbox.length < 4 then (0, 0)
  else ((bbox.getD 0 0 + bbox.getD 2 0) / 2, (bbox.getD 1 0 + bbox.getD 3 0) / 2)

/-- The squared Euclidean distance between two centers; the source's
_calculate_distance is its square root, rendered by fmtSqrt1 and compared
against 100 pixels by comparing the square against 10000. -/
def dist2 (p1 p2 : ℚ × ℚ) : ℚ := (p1.1 - p2.1)^2 + (p1.2 - p2.2)^2

/-- ForensicReportGenerator._bboxes_overlap. -/
def bboxes_overlap (bbox1 bbox2 : List ℚ) : Bool :=
  if bbox1.length < 4 || bbox2.length < 4 then false
  else !(decide (bbox1.getD 2 0 < bbox2.getD 0 0)
      || decide (bbox2.getD 2 0 < bbox1.getD 0 0)
      || decide (bbox1.getD 3 0 < bbox2.getD 1 0)
      || decide (bbox2.getD 3 0 < bbox1.getD 1 0))

/-- ForensicReportGenerator._is_dangerous_object: keyword containment over
the lower-cased class name. -/
def is_dangerous_object (class_name : String) : Bool :=
  ["gun", "pistol", "rifle", "firearm", "weapon",
   "knife", "blade", "dagger", "sword", "machete",
   "scissors", "hammer", "axe", "crowbar", "bat",
   "bottle", "bomb", "explosive"].any
    (fun keyword => CrimeModel.strContains (strLower class_name) keyword)

/-- ForensicReportGenerator._assess_overall_risk. -/
def assess_overall_risk (detections : List NDet) : String :=
  if detections.isEmpty then "LOW"
  else
    let dangerous_count :=
      (detections.filter (fun d => is_dangerous_object d.class_name)).length
    let high_conf_dangerous :=
      (detections.filter (fun d =>
        is_dangerous_object d.class_name && decide (d.confidence ≥ 70/100))).length
    let avg_confidence := (detections.map (fun d => d.confidence)).sum / detections.length
    if 0 < dangerous_count ∧ 0 < high_conf_dangerous ∧ 70/100 ≤ avg_confidence
    then "HIGH"
    else if 0 < dangerous_count ∨ 60/100 ≤ avg_confidence then "MEDIUM"
    else "LOW"

/-- Structural insertion sort on strings (Python sorted over a set of class
names). -/
def insertSorted (x : String) (l : List String) : List String :=
  match l with
  | [] => [x]
  | h :: t => if (compare x h).isLE then x :: h :: t else h :: insertSorted x t

/-- sorted(set(l)): deduplicate, then sort. -/
def sortedUnique (l : List String) : List String :=
  l.eraseDups.foldr insertSorted []

/-- "=" * 80. -/
def eq80 : String := String.mk (List.replicate 80 '=')

/-- "-" * 80. -/
def dash80 : String := String.mk (List.replicate 80 '-')

/-- The fixed no-findings paragraph of the executive summary's empty-input
branch. -/
def noFindingsText : String :=
  "No objects or activities meeting the detection criteria were identified during the analysis period. The scene was assessed as presenting minimal observable risk indicators based on the available visual evidence.\n"

/-- ForensicReportGenerator._generate_executive_summary. -/
def generate_executive_summary (detections : List NDet) (timestamp : String) : String :=
  let header := eq80 ++ "\n1. EXECUTIVE SUMMARY\n" ++ eq80
  if detections.isEmpty then
    header ++ ("\nThe automated analysis system processed the submitted evidence at "
      ++ (timestamp ++ (".\n\n" ++ noFindingsText)))
  else
    let unique_classes := (detections.map (fun d => d.class_name)).eraseDups.length
    let high_confidence_detections :=
      detections.filter (fun d => decide (d.confidence ≥ 70/100))
    let dangerous_objects := detections.filter (fun d => is_dangerous_object d.class_name)
    header
      ++ "\nThe automated forensic analysis system processed the submitted evidence at "
      ++ timestamp ++ ". The analysis identified " ++ toString detections.length
      ++ " distinct detection event(s) across " ++ toString unique_classes
      ++ " unique object class(es).\n\n"
      ++ (if dangerous_objects.isEmpty then "" else
            "Of particular forensic significance, " ++ toString dangerous_objects.length
            ++ " detection(s) corresponded to objects classified as potentially dangerous or threat-related. ")
      ++ (if high_confidence_detections.isEmpty then
            "The confidence scores associated with the detections suggest moderate to low certainty, warranting careful expert review.\n"
          else
            toString high_confidence_detections.length
            ++ " detection(s) were recorded with confidence scores exceeding 0.70, indicating strong model certainty regarding the identified classifications.\n")
      ++ "\nThis summary presents the initial automated findings. Detailed analysis and expert interpretation are provided in subsequent sections of this report.\n"

/-- One numbered entry of the forensic observation log. -/
def obs_entry (idx : ℕ) (det : NDet) : String :=
  "\nObservation #" ++ toString idx ++ ":\n"
    ++ "  Object Class: " ++ det.class_name ++ "\n"
    ++ "  Detection Confidence: " ++ fmtQ 3 det.confidence
    ++ " (" ++ fmtQ 1 (det.confidence * 100) ++ "%)\n"
    ++ "  Risk Level Classification: " ++ det.risk_level ++ "\n"
    ++ (if 4 ≤ det.bbox.length then
          "  Spatial Coordinates:\n    - Bounding Box: ["
          ++ fmtQ 1 (det.bbox.getD 0 0) ++ ", " ++ fmtQ 1 (det.bbox.getD 1 0) ++ ", "
          ++ fmtQ 1 (det.bbox.getD 2 0) ++ ", " ++ fmtQ 1 (det.bbox.getD 3 0) ++ "]\n"
          ++ "    - Estimated Center: ("
          ++ fmtQ 1 ((det.bbox.getD 0 0 + det.bbox.getD 2 0) / 2) ++ ", "
          ++ fmtQ 1 ((det.bbox.getD 1 0 + det.bbox.getD 3 0) / 2) ++ ")\n"
          ++ "    - Estimated Dimensions: "
          ++ fmtQ 1 |det.bbox.getD 2 0 - det.bbox.getD 0 0| ++ " × "
          ++ fmtQ 1 |det.bbox.getD 3 0 - det.bbox.getD 1 0| ++ " pixels\n"
        else "")
    ++ (if det.confidence < 1/2 then
          "  Note: This detection falls below the 0.50 confidence threshold and is classified as a low-confidence observation. Expert review is strongly recommended.\n"
        else "")
    ++ "\n" ++ dash80 ++ "\n"

/-- ForensicReportGenerator._generate_forensic_observation_log. -/
def generate_forensic_observation_log (detections : List NDet) (timestamp : String) : String :=
  let header := eq80 ++ "\n2. FORENSIC OBSERVATION LOG\n" ++ eq80
  if detections.isEmpty then
    header ++ "\nNo detections were recorded during the analysis period.\n"
  else
    header ++ "\nTimestamp of Analysis: " ++ timestamp ++ "\n"
      ++ "\nThe following observations are based exclusively on the automated detection system output. No assumptions or interpretations beyond the model's direct output are included in this log.\n\n"
      ++ dash80 ++ "\n"
      ++ String.join ((detections.enumFrom 1).map (fun p => obs_entry p.1 p.2))
      ++ "\nEnd of Observation Log\n"

/-- ForensicReportGenerator._generate_behavioral_interpretation. -/
def generate_behavioral_interpretation (detections : List NDet) : String :=
  let header := eq80 ++ "\n3. BEHAVIORAL INTERPRETATION & THREAT ASSESSMENT\n" ++ eq80
  if detections.isEmpty then
    header ++ "\nBased on the detected pattern, no significant behavioral indicators or threat-related objects were identified. The assessed risk level is: LOW.\n"
  else
    let dangerous_objects := detections.filter (fun d => is_dangerous_object d.class_name)
    let persons := detections.filter
      (fun d => ["person", "people"].contains (strLower d.class_name))
    let high_confidence_detections :=
      detections.filter (fun d => decide (d.confidence ≥ 70/100))
    let overall_risk := assess_overall_risk detections
    header ++ "\nBased on the detected pattern, the following interpretations are provided:\n\n"
      ++ (if dangerous_objects.isEmpty then "" else
            "Object Presence Analysis:\nThe system detected " ++ toString dangerous_objects.length
            ++ " object(s) classified as potentially dangerous or threat-related. The detected object types include: "
            ++ String.intercalate ", " (sortedUnique (dangerous_objects.map (fun d => d.class_name)))
            ++ ".\n\n"
            ++ (if persons.isEmpty then "" else
                  "Spatial Relationship Analysis:\nThe detection output indicates the presence of both person(s) and potentially dangerous object(s) within the analyzed frame. Based on the detected pattern, spatial proximity between these entities cannot be definitively established from the automated analysis alone. Expert review of the spatial relationships is recommended.\n\n"))
      ++ "Behavioral Indicators:\n"
      ++ (if high_confidence_detections.isEmpty then "" else
            toString high_confidence_detections.length
            ++ " detection(s) exhibited high confidence scores (≥0.70), suggesting strong model certainty. ")
      ++ (if 1 < detections.length then
            "The presence of multiple detections (" ++ toString detections.length
            ++ " total) may indicate a complex scene requiring detailed examination.\n\n"
          else
            "A single detection event was recorded, suggesting a relatively isolated observation.\n\n")
      ++ "Threat Assessment:\nBased strictly on the detection output, the assessed risk level is: "
      ++ overall_risk ++ ".\n\n"
      ++ (if overall_risk == "HIGH" then
            "The combination of detected object types, confidence scores, and spatial indicators suggests elevated concern. However, this assessment is based solely on automated analysis and does not constitute definitive threat identification. Immediate expert review is recommended.\n"
          else if overall_risk == "MEDIUM" then
            "The detection pattern suggests moderate concern. The presence of certain object classes or behavioral indicators warrants careful examination. Expert review is recommended to validate and contextualize these findings.\n"
          else
            "The detection pattern suggests low immediate concern. However, all detections should be reviewed by qualified personnel to ensure appropriate contextualization.\n")
      ++ "\nNote: This threat assessment is derived exclusively from the automated detection output and does not replace professional security or law enforcement evaluation.\n"

/-- One per-detection paragraph of the evidential confidence analysis. -/
def interp_entry (idx : ℕ) (det : NDet) : String :=
  "\n  Detection #" ++ toString idx ++ " (" ++ det.class_name ++ "):\n"
    ++ "    Confidence Score: " ++ fmtQ 3 det.confidence ++ "\n"
    ++ (if det.confidence ≥ 80/100 then
          "    Interpretation: High confidence. The model indicates strong certainty ("
          ++ fmtQ 1 (det.confidence * 100)
          ++ "%) that this detection corresponds to the identified class. This represents a strong indication but does not constitute definitive proof.\n"
        else if det.confidence ≥ 1/2 then
          "    Interpretation: Medium confidence. The model indicates moderate certainty ("
          ++ fmtQ 1 (det.confidence * 100)
          ++ "%) regarding this classification. Expert review is recommended to validate this detection.\n"
        else
          "    Interpretation: Low confidence. The model indicates weak certainty ("
          ++ fmtQ 1 (det.confidence * 100)
          ++ "%) for this detection. This observation should be treated with caution and requires expert validation.\n")

/-- ForensicReportGenerator._generate_evidential_confidence_analysis. -/
def generate_evidential_confidence_analysis (detections : List NDet) : String :=
  let header := eq80 ++ "\n4. EVIDENTIAL CONFIDENCE ANALYSIS\n" ++ eq80
  if detections.isEmpty then
    header ++ "\nNo detections were recorded; therefore, no confidence analysis is applicable.\n"
  else
    let confidences := detections.map (fun d => d.confidence)
    let avg_confidence := confidences.sum / confidences.length
    let max_confidence := match confidences with
                          | [] => 0
                          | h :: t => t.foldl max h
    let min_confidence := match confidences with
                          | [] => 0
                          | h :: t => t.foldl min h
    let high_conf_count := (confidences.filter (fun c => decide (c ≥ 80/100))).length
    let medium_conf_count :=
      (confidences.filter (fun c => decide (1/2 ≤ c) && decide (c < 80/100))).length
    let low_conf_count := (confidences.filter (fun c => decide (c < 1/2))).length
    header
      ++ "\nThe following analysis examines the confidence scores provided by the detection model. These scores represent the model's internal assessment of certainty regarding each classification.\n\n"
      ++ "Confidence Score Statistics:\n"
      ++ "  - Total Detections: " ++ toString detections.length ++ "\n"
      ++ "  - Average Confidence: " ++ fmtQ 3 avg_confidence
      ++ " (" ++ fmtQ 1 (avg_confidence * 100) ++ "%)\n"
      ++ "  - Maximum Confidence: " ++ fmtQ 3 max_confidence
      ++ " (" ++ fmtQ 1 (max_confidence * 100) ++ "%)\n"
      ++ "  - Minimum Confidence: " ++ fmtQ 3 min_confidence
      ++ " (" ++ fmtQ 1 (min_confidence * 100) ++ "%)\n\n"
      ++ "Confidence Distribution:\n"
      ++ "  - High Confidence (≥0.80): " ++ toString high_conf_count ++ " detection(s)\n"
      ++ "  - Medium Confidence (0.50-0.79): " ++ toString medium_conf_count ++ " detection(s)\n"
      ++ "  - Low Confidence (<0.50): " ++ toString low_conf_count ++ " detection(s)\n\n"
      ++ "Forensic Interpretation of Confidence Scores:\n\n"
      ++ (if 0 < high_conf_count then
            "High confidence scores (≥0.80) indicate strong model certainty. For example, a 0.87 confidence score suggests a strong indication that the detected object matches the identified class. However, even high confidence scores do not replace expert human review and should be considered as probabilistic assessments rather than definitive identifications.\n\n"
          else "")
      ++ (if 0 < medium_conf_count then
            "Medium confidence scores (0.50-0.79) indicate moderate model certainty. These detections warrant careful examination, as the model expresses some uncertainty. Expert review is recommended to validate these classifications and assess their evidentiary value.\n\n"
          else "")
      ++ (if 0 < low_conf_count then
            "Low confidence scores (<0.50) indicate weak model certainty. These detections are classified as low-confidence observations and should be treated with particular caution. They may represent false positives, ambiguous visual features, or objects at the edge of the model's classification capabilities. Expert review is essential for these cases.\n\n"
          else "")
      ++ "Individual Detection Confidence Analysis:\n"
      ++ String.join ((detections.enumFrom 1).map (fun p => interp_entry p.1 p.2))
      ++ "\nImportant Note: Confidence scores reflect the model's internal assessment and are not equivalent to legal standards of proof or expert opinion. All detections, regardless of confidence level, require appropriate professional review.\n"

/-- The person-to-dangerous-object block of the scene contextualization. -/
def scene_person_block (dangerous_objects : List NDet) (pIdx : ℕ) (person : NDet) : String :=
  let p_center := bbox_center person.bbox
  "\n  Person #" ++ toString pIdx ++ " (Center: " ++ fmtQ 1 p_center.1 ++ ", "
    ++ fmtQ 1 p_center.2 ++ "):\n"
    ++ String.join ((dangerous_objects.enumFrom 1).map (fun dj =>
        let d_center := bbox_center dj.2.bbox
        let sq := dist2 p_center d_center
        "    - Distance to " ++ dj.2.class_name ++ " #" ++ toString dj.1
          ++ ": approximately " ++ fmtSqrt1 sq ++ " pixels\n"
          ++ (if bboxes_overlap person.bbox dj.2.bbox then
                "      (Bounding boxes overlap - object may be held or in close proximity)\n"
              else if sq < 10000 then "      (Close proximity detected)\n"
              else "")))

/-- The object-to-object block of the scene contextualization (pairs i < j
of dangerous objects). -/
def obj_pairs_block (dangerous_objects : List NDet) : String :=
  String.join ((dangerous_objects.enumFrom 1).map (fun oi =>
    String.join (((dangerous_objects.drop oi.1).enumFrom (oi.1 + 1)).map (fun oj =>
      "  - " ++ oi.2.class_name ++ " #" ++ toString oi.1 ++ " to " ++ oj.2.class_name
        ++ " #" ++ toString oj.1 ++ ": approximately "
        ++ fmtSqrt1 (dist2 (bbox_center oi.2.bbox) (bbox_center oj.2.bbox))
        ++ " pixels\n"))))

/-- ForensicReportGenerator._generate_scene_contextualization. -/
def generate_scene_contextualization (detections : List NDet) : String :=
  let header := eq80 ++ "\n5. SCENE CONTEXTUALIZATION\n" ++ eq80
  if detections.isEmpty then
    header ++ "\nNo detections were recorded; therefore, no spatial analysis is applicable.\n"
  else
    let persons := detections.filter
      (fun d => ["person", "people"].contains (strLower d.class_name))
    let dangerous_objects := detections.filter (fun d => is_dangerous_object d.class_name)
    let other_objects := detections.filter
      (fun d => !(persons.contains d) && !(dangerous_objects.contains d))
    header
      ++ "\nThis section describes the spatial relationships among detected objects based exclusively on the bounding box coordinates provided by the detection system. No speculative interpretations are included.\n\n"
      ++ "Detected Entity Summary:\n"
      ++ "  - Person(s): " ++ toString persons.length ++ " detection(s)\n"
      ++ "  - Potentially Dangerous Object(s): " ++ toString dangerous_objects.length
      ++ " detection(s)\n"
      ++ "  - Other Object(s): " ++ toString other_objects.length ++ " detection(s)\n\n"
      ++ (if 1 < detections.length then
            "Spatial Relationship Analysis:\n\n"
            ++ (if !persons.isEmpty && !dangerous_objects.isEmpty then
                  "Person-Object Spatial Relationships:\n"
                  ++ String.join ((persons.enumFrom 1).map (fun p =>
                      scene_person_block dangerous_objects p.1 p.2))
                else "")
            ++ (if 1 < dangerous_objects.length then
                  "\nObject-to-Object Spatial Relationships:\n"
                  ++ obj_pairs_block dangerous_objects
                else "")
          else "")
      ++ "\nSpatial Distribution:\n"
      ++ (if 0 < detections.length then
            "  - Average detection center: ("
            ++ fmtQ 1 ((detections.map (fun d => (bbox_center d.bbox).1)).sum
                / detections.length) ++ ", "
            ++ fmtQ 1 ((detections.map (fun d => (bbox_center d.bbox).2)).sum
                / detections.length)
            ++ ") pixels\n  - Detections are distributed across the frame\n"
          else "")
      ++ "\nLimitations of Spatial Analysis:\nThe spatial relationships described above are based on 2D bounding box coordinates and do not account for:\n  - Depth perception or 3D spatial relationships\n  - Camera angle or perspective distortion\n  - Actual physical distances (pixel distances are not equivalent to real-world measurements)\n  - Temporal relationships (this analysis represents a single frame or time point)\n\n"
      ++ "Expert review is recommended to properly contextualize these spatial observations within the broader scene context.\n"

/-- ForensicReportGenerator._generate_limitations_disclaimer (now is the
datetime.utcnow() reading). -/
def generate_limitations_disclaimer (now : String) : String :=
  eq80 ++ "\n6. LIMITATIONS & DISCLAIMER\n" ++ eq80
    ++ "\nThis forensic analysis report is generated by an automated artificial intelligence system and is subject to the following limitations and disclaimers:\n\n"
    ++ "1. AI Analysis Limitations:\n   - Automated detection systems are probabilistic in nature and may produce false positives or false negatives.\n   - Model performance is dependent on training data, environmental conditions, image quality, and scene complexity.\n   - Confidence scores reflect model certainty, not legal standards of proof or expert opinion.\n   - The system may misclassify objects, particularly in cases of occlusion, poor lighting, or unusual viewing angles.\n\n"
    ++ "2. Expert Review Requirement:\n   - This automated analysis does NOT replace expert human interpretation or professional forensic examination.\n   - All detections, regardless of confidence level, require review by qualified forensic analysts or law enforcement personnel.\n   - The findings presented in this report should be considered as preliminary indicators requiring validation.\n\n"
    ++ "3. Legal and Evidentiary Considerations:\n   - This report is generated for investigative and analytical purposes only.\n   - The automated system's output should not be considered as definitive evidence without proper chain of custody, expert validation, and legal review.\n   - The use of AI-generated reports in legal proceedings must comply with applicable laws, regulations, and evidentiary standards.\n\n"
    ++ "4. Technical Limitations:\n   - The analysis is based on visual information only and does not incorporate audio, contextual information, or external data sources.\n   - Temporal analysis is limited to the specific frame(s) or time period(s) analyzed.\n   - The system cannot assess intent, context, or legal implications of detected objects or behaviors.\n\n"
    ++ "5. Disclaimer of Warranties:\n   - This report is provided \"as is\" without warranties of any kind, express or implied.\n   - The system operators and developers assume no liability for decisions made based on this automated analysis.\n   - Users are responsible for appropriate interpretation and validation of all findings.\n\n"
    ++ "By using this report, the recipient acknowledges understanding of these limitations and agrees to use the information appropriately and in accordance with applicable professional and legal standards.\n\n"
    ++ "Report Generated: " ++ now ++ "\n"
    ++ "System: Forensic AI Crime Detection System\nReport Type: Automated Forensic Analysis\n"

/-- ForensicReportGenerator._generate_error_report. -/
def generate_error_report (now error_message : String) : String :=
  eq80 ++ "\nFORENSIC REPORT GENERATION ERROR\n" ++ eq80
    ++ ("\nAn error occurred during report generation: " ++ (error_message ++ ("\n"
    ++ ("\nPlease review the detection data format and ensure all required fields are present.\n"
    ++ ("\nReport Generation Timestamp: " ++ (now ++ "\n"))))))

/-- ForensicReportGenerator.generate_report: the timestamp defaults to the
clock reading, normalization's failure is the only fallible step of the
try-block in this model, and on failure the error report is returned; on
success the six sections are joined with blank lines. -/
def generate_report (now : String) (timestamp : Option String)
    (detections : List RawDet) : String :=
  let ts := timestamp.getD now
  match normalize_detections detections with
  | Except.error e => generate_error_report now e
  | Except.ok nds =>
    String.intercalate "\n\n"
      [generate_executive_summary nds ts,
       generate_forensic_observation_log nds ts,
       generate_behavioral_interpretation nds,
       generate_evidential_confidence_analysis nds,
       generate_scene_contextualization nds,
       generate_limitations_disclaimer now]

/-- Substring containment at the String level: s splits around n. -/
def IsSubstr (n s : String) : Prop := ∃ a b : String, s = a ++ (n ++ b)

/-- A malformed batch: one record whose confidence is a non-numeric string,
on which float() raises inside normalization (C5 witness input). -/
def c5BadInput : List RawDet :=
  [RawDet.record { confidence := some (PyVal.str "x") }]

end Forensic

-- ===================== theorems =====================

/-- Helper: the two any-predicates of analyze and analyzeClaim agree. -/
theorem threat_suppress_pred_eq (t n : ThreatAnalyzer.Det) :
    (decide (ThreatAnalyzer.calculate_iou t.bbox n.bbox > 1/2)
        && decide (n.confidence > t.confidence))
      = decide (ThreatAnalyzer.calculate_iou t.bbox n.bbox > 1/2
        ∧ t.confidence < n.confidence) := by
  simp [Bool.decide_and, gt_iff_lt]

/-- C1: ThreatAnalyzer.analyze computes exactly the claim's classification:
lethal weapons suppressed by a higher-confidence hard negative with
IoU > 0.5 are excluded; otherwise the first person with IoU strictly above
the interaction threshold yields CRITICAL / "Armed Suspect Alert" with
that person's track id; otherwise WARNING / "Unattended Weapon Warning". -/
theorem c1_analyze_matches_claim (iouThreshold : ℚ)
    (detections : List ThreatAnalyzer.Det) :
    ThreatAnalyzer.analyze iouThreshold detections
      = ThreatAnalyzer.analyzeClaim iouThreshold detections := by
  unfold ThreatAnalyzer.analyze ThreatAnalyzer.analyzeClaim
  refine congrFun (congrArg List.filterMap (funext fun t => ?_)) _
  simp only [threat_suppress_pred_eq, gt_iff_lt]

/-- C2 counterexample: on a frame whose overlapping person has no track id,
analyze emits a CRITICAL detection whose associated_person_id key is
present but holds None (some none), not an actual identifier, so the claim
"CRITICAL implies associated_person_id is set to an actual identifier"
fails on the code as stated. -/
theorem c2_counterexample :
    (ThreatAnalyzer.analyze (1/10) ThreatAnalyzer.c2Input).map
        (fun d => (d.alert_level, d.associated_person_id))
      = [(some "CRITICAL", some none)] := by
  have h : ThreatAnalyzer.calculate_iou ⟨2, 2, 8, 8⟩ ⟨0, 0, 10, 10⟩ = 9/25 := by
    norm_num [ThreatAnalyzer.calculate_iou, max_def, min_def]
  simp +decide [ThreatAnalyzer.analyze, ThreatAnalyzer.c2Input, List.filter,
    List.any, List.find?, List.filterMap_cons, h]
  norm_num

/-- C2 amended: provided the input detections carry no associated_person_id
key and every person detection has a track id, every output of analyze
with alert_level CRITICAL has associated_person_id set to an actual
identifier, and every output with alert_level WARNING does not have it
set. -/
theorem c2_alert_person_id (iouThreshold : ℚ)
    (detections : List ThreatAnalyzer.Det) (o : ThreatAnalyzer.Det)
    (hclean : ∀ d ∈ detections, d.associated_person_id = none)
    (htracked : ∀ d ∈ detections,
      ["person", "people"].contains (strLower d.class_name) = true →
        d.track_id ≠ none)
    (hmem : o ∈ ThreatAnalyzer.analyze iouThreshold detections) :
    (o.alert_level = some "CRITICAL" →
        ∃ i : Int, o.associated_person_id = some (some i))
      ∧ (o.alert_level = some "WARNING" → o.associated_person_id = none) := by
  rw [ThreatAnalyzer.analyze] at hmem
  simp only [List.mem_filterMap] at hmem
  obtain ⟨threat, hthreat, hf⟩ := hmem
  by_cases hsup : (detections.filter (fun d =>
      ThreatAnalyzer.non_threat_objects.contains (strLower d.class_name))).any
      (fun neg =>
        decide (ThreatAnalyzer.calculate_iou threat.bbox neg.bbox > 1/2)
          && decide (neg.confidence > threat.confidence)) = true
  · rw [if_pos hsup] at hf
    exact absurd hf (by simp)
  · rw [if_neg hsup] at hf
    cases hper : (detections.filter (fun d =>
        (["person", "people"] : List String).contains (strLower d.class_name))).find?
        (fun person =>
          decide (ThreatAnalyzer.calculate_iou threat.bbox person.bbox
            > iouThreshold)) with
    | some person =>
        rw [hper] at hf
        have hpmem := List.mem_of_find?_eq_some hper
        rw [List.mem_filter] at hpmem
        have htid := htracked person hpmem.1 hpmem.2
        obtain ⟨i, hi⟩ := Option.ne_none_iff_exists'.mp htid
        cases hf
        constructor
        · intro _
          exact ⟨i, by simp [hi]⟩
        · intro hw
          simp at hw
    | none =>
        rw [hper] at hf
        have hthr := (List.mem_filter.mp hthreat).1
        cases hf
        constructor
        · intro hc
          simp at hc
        · intro _
          simpa using hclean threat hthr

/-- C2 witness: the amended invariant instantiated on a concrete tracked
scene, hypotheses discharged by evaluation. -/
theorem c2_alert_person_id_witness :
    (ThreatAnalyzer.c2OutputDet.alert_level = some "CRITICAL" →
        ∃ i : Int, ThreatAnalyzer.c2OutputDet.associated_person_id = some (some i))
      ∧ (ThreatAnalyzer.c2OutputDet.alert_level = some "WARNING" →
        ThreatAnalyzer.c2OutputDet.associated_person_id = none) :=
  c2_alert_person_id (1/10) ThreatAnalyzer.c2TrackedInput
    ThreatAnalyzer.c2OutputDet
    (by simp +decide [ThreatAnalyzer.c2TrackedInput])
    (by simp +decide [ThreatAnalyzer.c2TrackedInput])
    (by
      have h : ThreatAnalyzer.calculate_iou ⟨2, 2, 8, 8⟩ ⟨0, 0, 10, 10⟩ = 9/25 := by
        norm_num [ThreatAnalyzer.calculate_iou, max_def, min_def]
      simp +decide [ThreatAnalyzer.analyze, ThreatAnalyzer.c2TrackedInput,
        ThreatAnalyzer.c2OutputDet, List.filter, List.any, List.find?,
        List.filterMap_cons, h]
      norm_num)

/-- Helper: the scans after the false-positive block never produce a
suppression return. -/
theorem crime_scanResult_not_suppressed (cn lower : String) (conf : ℚ) :
    CrimeModel.suppressedB (CrimeModel.scanResult cn lower conf) = false := by
  unfold CrimeModel.scanResult
  cases CrimeModel.scanDangerous lower conf with
  | some t => rfl
  | none =>
      cases CrimeModel.scanKeywords lower conf with
      | some w => rfl
      | none => rfl

/-- Helper: a known knife false positive at or above its min_confidence is
always suppressed, whatever the bbox geometry. -/
theorem crime_suppressed_of_conf (cn : String) (conf : ℚ) (bbox : Option (List ℚ))
    (fp : CrimeModel.FPConfig)
    (h : CrimeModel.lookupFP (strLower cn) = some fp)
    (hc : fp.min_confidence ≤ conf) :
    CrimeModel.suppressedB (CrimeModel.map_to_dangerous_object cn conf bbox) = true := by
  simp only [CrimeModel.map_to_dangerous_object, h, hc, if_true]
  cases bbox with
  | none => rfl
  | some b =>
      by_cases hl : 4 ≤ b.length
      · simp only [hl, if_true]
        repeat' split
        all_goals rfl
      · simp only [hl, if_false]
        rfl

/-- C3 counterexample: a toothbrush detection with confidence 0.60 and a
square bbox (aspect ratio 1, outside the configured range (0.25, 0.75)) is
still suppressed by the code, while the claim's stated condition
(confidence AND aspect ratio AND area bounds) evaluates false — the
geometry checks never actually gate suppression. -/
theorem c3_counterexample :
    CrimeModel.suppressedB
        (CrimeModel.map_to_dangerous_object "toothbrush" (6/10) (some [0, 0, 10, 10])) = true
      ∧ CrimeModel.c3ClaimCondition "toothbrush" (6/10) (some [0, 0, 10, 10]) = false := by
  constructor
  · apply crime_suppressed_of_conf "toothbrush" (6/10) (some [0, 0, 10, 10])
      { min_confidence := 55/100, aspect_ratio_range := (25/100, 75/100),
        max_area_bound := some (2/100) }
    · rfl
    · norm_num
  · have hlk : CrimeModel.lookupFP (strLower "toothbrush")
        = some { min_confidence := 55/100, aspect_ratio_range := (25/100, 75/100),
                 max_area_bound := some (2/100) } := rfl
    rw [CrimeModel.c3ClaimCondition, hlk]
    norm_num [List.getD]

/-- C3 amended: for every class in the knife false-positive table (bbox
supplied or not), suppression triggers exactly when confidence reaches the
class's min_confidence; the aspect-ratio and area-ratio checks only choose
between two identical suppression returns and never prevent suppression. -/
theorem c3_suppression_iff (cn : String) (conf : ℚ) (bbox : Option (List ℚ))
    (fp : CrimeModel.FPConfig)
    (h : CrimeModel.lookupFP (strLower cn) = some fp) :
    CrimeModel.suppressedB (CrimeModel.map_to_dangerous_object cn conf bbox) = true
      ↔ fp.min_confidence ≤ conf := by
  by_cases hc : fp.min_confidence ≤ conf
  · simp only [hc, iff_true]
    exact crime_suppressed_of_conf cn conf bbox fp h hc
  · simp only [hc, iff_false]
    simp [CrimeModel.map_to_dangerous_object, h, hc,
      crime_scanResult_not_suppressed]

/-- C3 witness: the amended equivalence instantiated on a remote-control
detection with confidence 0.6 and a small square bbox. -/
theorem c3_suppression_iff_witness :
    CrimeModel.suppressedB
        (CrimeModel.map_to_dangerous_object "remote" (6/10) (some [0, 0, 4, 4])) = true
      ↔ ({ min_confidence := 5/10, aspect_ratio_range := (4/10, 16/10),
           max_area_bound := some (15/1000) } : CrimeModel.FPConfig).min_confidence ≤ 6/10 :=
  c3_suppression_iff "remote" (6/10) (some [0, 0, 4, 4])
    { min_confidence := 5/10, aspect_ratio_range := (4/10, 16/10),
      max_area_bound := some (15/1000) }
    rfl

/-- Helper: a findSome? whose function returns a fixed value exactly on
elements satisfying c is an any-test. -/
theorem findSome?_if_const {α β : Type} (l : List α) (c : α → Bool) (b : β) :
    l.findSome? (fun v => if c v then some b else none)
      = if l.any c then some b else none := by
  induction l with
  | nil => rfl
  | cons hd tl ih =>
      by_cases hc : c hd
      · simp [List.findSome?_cons, hc]
      · simp [List.findSome?_cons, hc, ih]

/-- Helper: with no knife skip active, the dangerous scan returns the first
category with some alias contained in the label. -/
theorem scanDangerous_noskip (lower : String) (conf : ℚ)
    (hsk : ∀ t, CrimeModel.knifeSkip lower t conf = false) :
    CrimeModel.scanDangerous lower conf
      = CrimeModel.dangerous_objects.findSome? (fun p =>
          if p.2.any (fun variation => CrimeModel.strContains lower variation)
          then some p.1 else none) := by
  unfold CrimeModel.scanDangerous
  refine congrFun (congrArg List.findSome? (funext fun p => ?_)) _
  rw [← findSome?_if_const p.2 (fun v => CrimeModel.strContains lower v) p.1]
  refine congrFun (congrArg List.findSome? (funext fun v => ?_)) _
  by_cases hv : CrimeModel.strContains lower v
  · simp [hv, hsk p.1]
  · simp [hv]

/-- Helper: with no knife skip active, the keyword scan returns "weapon"
exactly when some weapon keyword is contained in the label. -/
theorem scanKeywords_noskip (lower : String) (conf : ℚ)
    (hsk : ∀ t, CrimeModel.knifeSkip lower t conf = false) :
    CrimeModel.scanKeywords lower conf
      = if CrimeModel.weapon_keywords.any (fun k => CrimeModel.strContains lower k)
        then some "weapon" else none := by
  unfold CrimeModel.scanKeywords
  rw [← findSome?_if_const CrimeModel.weapon_keywords
    (fun k => CrimeModel.strContains lower k) "weapon"]
  refine congrFun (congrArg List.findSome? (funext fun k => ?_)) _
  by_cases hv : CrimeModel.strContains lower k
  · simp [hv, hsk k]
  · simp [hv]

/-- C4 counterexample: the raw label "Book" matches no dangerous alias and
no weapon keyword, and the code's final fallback returns the label in its
original casing, not the lower-cased label the claim states. -/
theorem c4_counterexample :
    (CrimeModel.map_to_dangerous_object "Book" (1/2) none).result = "Book"
      ∧ "Book" ≠ strLower "Book" := by
  constructor
  · rfl
  · decide

/-- C4 amended: whenever the knife false-positive block does not suppress,
_map_to_dangerous_object returns the first canonical dangerous category
with an alias contained in the lower-cased label, else "weapon" when a
generic weapon keyword is contained, else the raw label unchanged in its
original casing (the claim said lower-cased; the code returns class_name). -/
theorem c4_classify_unsuppressed (cn : String) (conf : ℚ) (bbox : Option (List ℚ))
    (hsupp : CrimeModel.suppressedB
      (CrimeModel.map_to_dangerous_object cn conf bbox) = false) :
    (CrimeModel.map_to_dangerous_object cn conf bbox).result
      = CrimeModel.classifyClaim cn := by
  cases hl : CrimeModel.lookupFP (strLower cn) with
  | some fp =>
      by_cases hc : fp.min_confidence ≤ conf
      · rw [crime_suppressed_of_conf cn conf bbox fp hl hc] at hsupp
        exact absurd hsupp (by simp)
      · have hsk : ∀ t, CrimeModel.knifeSkip (strLower cn) t conf = false := by
          intro t
          simp [CrimeModel.knifeSkip, hl, hc]
        have hmap : CrimeModel.map_to_dangerous_object cn conf bbox
            = CrimeModel.scanResult cn (strLower cn) conf := by
          simp [CrimeModel.map_to_dangerous_object, hl, hc]
        rw [hmap, CrimeModel.scanResult, CrimeModel.classifyClaim,
          scanDangerous_noskip _ _ hsk, scanKeywords_noskip _ _ hsk]
        cases CrimeModel.dangerous_objects.findSome? (fun p =>
            if p.2.any (fun variation => CrimeModel.strContains (strLower cn) variation)
            then some p.1 else none) with
        | some t => rfl
        | none =>
            by_cases hk : CrimeModel.weapon_keywords.any
                (fun k => CrimeModel.strContains (strLower cn) k)
            · simp [hk]
            · simp [hk]
  | none =>
      have hsk : ∀ t, CrimeModel.knifeSkip (strLower cn) t conf = false := by
        intro t
        simp [CrimeModel.knifeSkip, hl]
      have hmap : CrimeModel.map_to_dangerous_object cn conf bbox
          = CrimeModel.scanResult cn (strLower cn) conf := by
        simp [CrimeModel.map_to_dangerous_object, hl]
      rw [hmap, CrimeModel.scanResult, CrimeModel.classifyClaim,
        scanDangerous_noskip _ _ hsk, scanKeywords_noskip _ _ hsk]
      cases CrimeModel.dangerous_objects.findSome? (fun p =>
          if p.2.any (fun variation => CrimeModel.strContains (strLower cn) variation)
          then some p.1 else none) with
      | some t => rfl
      | none =>
          by_cases hk : CrimeModel.weapon_keywords.any
              (fun k => CrimeModel.strContains (strLower cn) k)
          · simp [hk]
          · simp [hk]

/-- C4 witness: the amended characterization instantiated on the raw label
"Remote Control", which is not in the false-positive table and matches no
alias, with the non-suppression hypothesis discharged by evaluation. -/
theorem c4_classify_unsuppressed_witness :
    (CrimeModel.map_to_dangerous_object "Remote Control" (1/2) none).result
      = CrimeModel.classifyClaim "Remote Control" :=
  c4_classify_unsuppressed "Remote Control" (1/2) none rfl

/-- Helper: calibrate is nonnegative. -/
theorem calibrate_formula_nonneg (temp_scale conf : ℝ) :
    0 ≤ Calib.calibrate_formula temp_scale conf := by
  unfold Calib.calibrate_formula
  split_ifs with h1 h2
  · exact le_refl 0
  · exact zero_le_one
  · exact le_max_left 0 _

/-- Helper: calibrate is at most one. -/
theorem calibrate_formula_le_one (temp_scale conf : ℝ) :
    Calib.calibrate_formula temp_scale conf ≤ 1 := by
  unfold Calib.calibrate_formula
  split_ifs with h1 h2
  · exact zero_le_one
  · exact le_refl 1
  · exact max_le zero_le_one (min_le_left 1 _)

/-- Helper: the nonpositive edge maps to 0. -/
theorem calibrate_formula_of_nonpos (temp_scale conf : ℝ) (h : conf ≤ 0) :
    Calib.calibrate_formula temp_scale conf = 0 := by
  unfold Calib.calibrate_formula
  rw [if_pos h]

/-- Helper: the at-least-one edge maps to 1. -/
theorem calibrate_formula_of_one_le (temp_scale conf : ℝ) (h : 1 ≤ conf) :
    Calib.calibrate_formula temp_scale conf = 1 := by
  unfold Calib.calibrate_formula
  rw [if_neg (by linarith), if_pos h]

/-- Helper: calibrate is monotone non-decreasing in the confidence. -/
theorem calibrate_formula_mono (temp_scale c₁ c₂ : ℝ) (hle : c₁ ≤ c₂) :
    Calib.calibrate_formula temp_scale c₁ ≤ Calib.calibrate_formula temp_scale c₂ := by
  by_cases h1 : c₁ ≤ 0
  · rw [calibrate_formula_of_nonpos temp_scale c₁ h1]
    exact calibrate_formula_nonneg temp_scale c₂
  · by_cases h2 : 1 ≤ c₁
    · rw [calibrate_formula_of_one_le temp_scale c₁ h2,
        calibrate_formula_of_one_le temp_scale c₂ (le_trans h2 hle)]
    · by_cases h3 : 1 ≤ c₂
      · rw [calibrate_formula_of_one_le temp_scale c₂ h3]
        exact calibrate_formula_le_one temp_scale c₁
      · have hc1 : 0 < c₁ := lt_of_not_le h1
        have hu1 : c₁ < 1 := lt_of_not_le h2
        have hu2 : c₂ < 1 := lt_of_not_le h3
        have hd1 : 0 < 1 - c₁ := by linarith
        have hd2 : 0 < 1 - c₂ := by linarith
        unfold Calib.calibrate_formula
        rw [if_neg h1, if_neg h2, if_neg (by linarith : ¬ c₂ ≤ 0), if_neg h3]
        have hq : c₁ / (1 - c₁) ≤ c₂ / (1 - c₂) := by
          rw [div_le_div_iff hd1 hd2]
          nlinarith
        have hlog : Real.log (c₁ / (1 - c₁)) ≤ Real.log (c₂ / (1 - c₂)) :=
          Real.log_le_log (div_pos hc1 hd1) hq
        have hM : (0:ℝ) < max (1/1000000) temp_scale :=
          lt_of_lt_of_le (by norm_num) (le_max_left _ _)
        have hneg : -Real.log (c₂ / (1 - c₂)) ≤ -Real.log (c₁ / (1 - c₁)) := by
          linarith
        have hdiv : -Real.log (c₂ / (1 - c₂)) / max (1/1000000) temp_scale
            ≤ -Real.log (c₁ / (1 - c₁)) / max (1/1000000) temp_scale := by
          gcongr
        have hexp : Real.exp (-Real.log (c₂ / (1 - c₂)) / max (1/1000000) temp_scale)
            ≤ Real.exp (-Real.log (c₁ / (1 - c₁)) / max (1/1000000) temp_scale) :=
          Real.exp_le_exp.mpr hdiv
        have hpos : (0:ℝ) < 1 + Real.exp
            (-Real.log (c₂ / (1 - c₂)) / max (1/1000000) temp_scale) := by
          positivity
        refine max_le_max (le_refl 0) (min_le_min (le_refl 1) ?_)
        exact one_div_le_one_div_of_le hpos (by linarith)

/-- C9: whenever the logit computation (the try-block) fails, _calibrate_conf
applies the linear fallback conf / max(1e-6, temp_scale) clamped to [0, 1],
and the fallback itself never raises: its only division has the strictly
positive divisor max(1e-6, temp_scale), so the result is an ok value inside
[0, 1]. -/
theorem c9_fallback_applies (temp_scale conf : ℝ) (e : String)
    (h : Calib.calibrate_body temp_scale conf = Except.error e) :
    Calib.calibrate_conf temp_scale conf
        = Except.ok (max 0 (min 1 (conf / max (1/1000000) temp_scale)))
      ∧ 0 ≤ max (0:ℝ) (min 1 (conf / max (1/1000000) temp_scale))
      ∧ max (0:ℝ) (min 1 (conf / max (1/1000000) temp_scale)) ≤ 1 := by
  have hM : (0:ℝ) < max (1/1000000) temp_scale :=
    lt_of_lt_of_le (by norm_num) (le_max_left _ _)
  refine ⟨?_, le_max_left 0 _, max_le zero_le_one (min_le_left 1 _)⟩
  unfold Calib.calibrate_conf
  rw [h]
  unfold Calib.calibrate_fallback Calib.rdiv
  rw [if_neg (ne_of_gt hM)]

/-- Helper for the C9 witness: at temperature 1e-6 and confidence 1/4 the
scaled logit reaches math.exp's overflow bound, so the try-block fails with
OverflowError. -/
theorem calibrate_body_overflow :
    Calib.calibrate_body (1/1000000) (1/4)
      = Except.error "OverflowError: math range error" := by
  have hlog3 : (1:ℝ) ≤ Real.log 3 := by
    rw [Real.le_log_iff_exp_le (by norm_num)]
    exact le_of_lt (lt_trans Real.exp_one_lt_d9 (by norm_num))
  have hval : -Real.log ((1:ℝ)/4 / (1 - 1/4)) / max ((1:ℝ)/1000000) (1/1000000)
      = 1000000 * Real.log 3 := by
    rw [max_self]
    have h13 : ((1:ℝ)/4 / (1 - 1/4)) = 3⁻¹ := by norm_num
    rw [h13, Real.log_inv]
    ring
  have hover : (710:ℝ) ≤ -Real.log ((1:ℝ)/4 / (1 - 1/4))
      / max ((1:ℝ)/1000000) (1/1000000) := by
    rw [hval]
    nlinarith
  rw [Calib.calibrate_body, if_neg (by norm_num), if_neg (by norm_num),
    Calib.rdiv, if_neg (by norm_num)]
  show (match Calib.rlog ((1:ℝ)/4 / (1 - 1/4)) with
    | Except.error e => Except.error e
    | Except.ok logit =>
      match Calib.rdiv (-logit) (max (1/1000000) (1/1000000)) with
      | Except.error e => Except.error e
      | Except.ok sc =>
        match Calib.rexp sc with
        | Except.error e => Except.error e
        | Except.ok ex =>
          match Calib.rdiv 1 (1 + ex) with
          | Except.error e => Except.error e
          | Except.ok scaled => Except.ok (max 0 (min 1 scaled))) = _
  rw [Calib.rlog, if_neg (by norm_num)]
  show (match Calib.rdiv (-Real.log ((1:ℝ)/4 / (1 - 1/4)))
      (max (1/1000000) (1/1000000)) with
    | Except.error e => Except.error e
    | Except.ok sc =>
      match Calib.rexp sc with
      | Except.error e => Except.error e
      | Except.ok ex =>
        match Calib.rdiv 1 (1 + ex) with
        | Except.error e => Except.error e
        | Except.ok scaled => Except.ok (max 0 (min 1 scaled))) = _
  rw [Calib.rdiv, if_neg (by norm_num)]
  show (match Calib.rexp (-Real.log ((1:ℝ)/4 / (1 - 1/4))
      / max (1/1000000) (1/1000000)) with
    | Except.error e => Except.error e
    | Except.ok ex =>
      match Calib.rdiv 1 (1 + ex) with
      | Except.error e => Except.error e
      | Except.ok scaled => Except.ok (max 0 (min 1 scaled))) = _
  rw [Calib.rexp, if_pos hover]

/-- C9 witness: the fallback equation instantiated where the try-block
concretely overflows (temperature 1e-6, confidence 1/4). -/
theorem c9_fallback_applies_witness :
    Calib.calibrate_conf (1/1000000) (1/4)
        = Except.ok (max 0 (min 1 ((1:ℝ)/4 / max (1/1000000) (1/1000000))))
      ∧ 0 ≤ max (0:ℝ) (min 1 ((1:ℝ)/4 / max (1/1000000) (1/1000000)))
      ∧ max (0:ℝ) (min 1 ((1:ℝ)/4 / max (1/1000000) (1/1000000))) ≤ 1 :=
  c9_fallback_applies (1/1000000) (1/4) "OverflowError: math range error"
    calibrate_body_overflow

/-- Helper: clamping a nonnegative ratio at 0 is the identity inside the
claim's area clamp. -/
theorem claim_area_clamp (a f : ℚ) (ha : 0 ≤ a) (hf : 0 < f) :
    min 1 (max 0 (a / f)) = min 1 (a / f) := by
  rw [max_eq_right (div_nonneg ha (le_of_lt hf))]

/-- C6: _assess_risk computes exactly the claim's formula
clamp01(0.4 + class_weight + 0.3*area_ratio + 0.3*confidence) with the
default weight table, its value always lies in [0, 1], and the full-frame
confidence-1 gun detection scores exactly 1. -/
theorem c6_assess_risk (det : VideoProc.MDet) (frame_h frame_w : ℕ) :
    VideoProc.assess_risk VideoProc.default_weights det frame_h frame_w
        = VideoProc.riskClaimFormula det frame_h frame_w
      ∧ 0 ≤ VideoProc.assess_risk VideoProc.default_weights det frame_h frame_w
      ∧ VideoProc.assess_risk VideoProc.default_weights det frame_h frame_w ≤ 1
      ∧ VideoProc.assess_risk VideoProc.default_weights VideoProc.c6GunDet 100 100 = 1 := by
  refine ⟨?_, ?_, ?_, ?_⟩
  · simp only [VideoProc.assess_risk, VideoProc.riskClaimFormula, mul_one]
    rw [claim_area_clamp _ _ (by positivity) (by positivity)]
  · exact le_max_left 0 _
  · simp only [VideoProc.assess_risk]
    exact max_le zero_le_one (min_le_left 1 _)
  · have hs : strLower "gun" = "gun" := by decide
    have hw : VideoProc.lookupWeight VideoProc.default_weights "gun" = 1 := rfl
    simp only [VideoProc.assess_risk, VideoProc.c6GunDet, Option.getD_some, hs, hw]
    norm_num [max_def, min_def]

/-- Helper: every default class weight, and the 0.2 default for unknown
classes, is at least 0.2. -/
theorem default_weights_ge (k : String) :
    2/10 ≤ VideoProc.lookupWeight VideoProc.default_weights k := by
  unfold VideoProc.lookupWeight
  cases hf : VideoProc.default_weights.find? (fun p => p.1 == k) with
  | none => norm_num
  | some p =>
      have hp := List.mem_of_find?_eq_some hf
      simp only [VideoProc.default_weights, List.mem_cons, List.mem_singleton,
        List.not_mem_nil, or_false] at hp
      rcases hp with h|h|h|h|h|h|h|h|h|h|h|h|h <;> rw [h] <;> norm_num

/-- C10: for every detection with nonnegative confidence and any frame
shape, _assess_risk returns at least 0.6: the base 0.4 plus the minimum
class weight 0.2 already reach 0.6 before the nonnegative area and
confidence contributions, and the upper clamp cannot lower a value that is
below 1's floor of 0.6. -/
theorem c10_risk_floor (det : VideoProc.MDet) (frame_h frame_w : ℕ)
    (hconf : 0 ≤ det.confidence.getD 0) :
    6/10 ≤ VideoProc.assess_risk VideoProc.default_weights det frame_h frame_w := by
  have hw := default_weights_ge (strLower (det.class_name.getD ""))
  simp only [VideoProc.assess_risk, mul_one]
  refine le_trans (le_min (by norm_num) ?_) (le_max_right 0 _)
  have h1 : (0:ℚ) ≤ max 0 ((det.bbox.getD ⟨0, 0, 0, 0⟩).x2 - (det.bbox.getD ⟨0, 0, 0, 0⟩).x1)
      * max 0 ((det.bbox.getD ⟨0, 0, 0, 0⟩).y2 - (det.bbox.getD ⟨0, 0, 0, 0⟩).y1)
      / max 1 ((frame_w : ℚ) * (frame_h : ℚ)) := by positivity
  have h2 : (0:ℚ) ≤ (3:ℚ)/10 * min 1 (max 0 ((det.bbox.getD ⟨0, 0, 0, 0⟩).x2 - (det.bbox.getD ⟨0, 0, 0, 0⟩).x1)
      * max 0 ((det.bbox.getD ⟨0, 0, 0, 0⟩).y2 - (det.bbox.getD ⟨0, 0, 0, 0⟩).y1)
      / max 1 ((frame_w : ℚ) * (frame_h : ℚ))) :=
    mul_nonneg (by norm_num) (le_min zero_le_one h1)
  have h3 : (0:ℚ) ≤ (3:ℚ)/10 * det.confidence.getD 0 := mul_nonneg (by norm_num) hconf
  linarith [hw]

/-- C10 witness: the floor instantiated on a benign zero-confidence,
zero-area detection in a 10x10 frame. -/
theorem c10_risk_floor_witness :
    6/10 ≤ VideoProc.assess_risk VideoProc.default_weights VideoProc.c10BenignDet 10 10 :=
  c10_risk_floor VideoProc.c10BenignDet 10 10 (by simp [VideoProc.c10BenignDet])

/-- Helper: invariant of the best-match fold of _smooth_confidence: the
accumulator never decreases, every scanned IoU is bounded by the final
best, and the result is either the initial accumulator or the IoU of some
scanned previous detection together with that detection. -/
theorem bestPrev_fold_invariant (bb : Box) (l : List VideoProc.PrevDet) :
    ∀ (a : ℚ) (b : Option VideoProc.PrevDet),
      a ≤ (List.foldl (fun (acc : ℚ × Option VideoProc.PrevDet) prev =>
          if VideoProc.iou bb prev.bbox > acc.1
          then (VideoProc.iou bb prev.bbox, some prev) else acc) (a, b) l).1
      ∧ (∀ p ∈ l, VideoProc.iou bb p.bbox
          ≤ (List.foldl (fun (acc : ℚ × Option VideoProc.PrevDet) prev =>
              if VideoProc.iou bb prev.bbox > acc.1
              then (VideoProc.iou bb prev.bbox, some prev) else acc) (a, b) l).1)
      ∧ (List.foldl (fun (acc : ℚ × Option VideoProc.PrevDet) prev =>
            if VideoProc.iou bb prev.bbox > acc.1
            then (VideoProc.iou bb prev.bbox, some prev) else acc) (a, b) l = (a, b)
         ∨ ∃ q ∈ l,
            (List.foldl (fun (acc : ℚ × Option VideoProc.PrevDet) prev =>
              if VideoProc.iou bb prev.bbox > acc.1
              then (VideoProc.iou bb prev.bbox, some prev) else acc) (a, b) l).1
              = VideoProc.iou bb q.bbox
            ∧ (List.foldl (fun (acc : ℚ × Option VideoProc.PrevDet) prev =>
                if VideoProc.iou bb prev.bbox > acc.1
                then (VideoProc.iou bb prev.bbox, some prev) else acc) (a, b) l).2
              = some q) := by
  induction l with
  | nil =>
      intro a b
      refine ⟨le_refl a, ?_, Or.inl rfl⟩
      intro p hp
      exact absurd hp (List.not_mem_nil p)
  | cons hd tl ih =>
      intro a b
      simp only [List.foldl_cons]
      by_cases hgt : VideoProc.iou bb hd.bbox > (a, b).1
      · rw [if_pos hgt]
        obtain ⟨ih1, ih2, ih3⟩ := ih (VideoProc.iou bb hd.bbox) (some hd)
        refine ⟨le_trans (le_of_lt hgt) ih1, ?_, ?_⟩
        · intro p hp
          rcases List.mem_cons.mp hp with rfl | hp
          · exact ih1
          · exact ih2 p hp
        · rcases ih3 with heq | ⟨q, hq, h1, h2⟩
          · right
            refine ⟨hd, List.mem_cons_self hd tl, ?_, ?_⟩
            · rw [heq]
            · rw [heq]
          · right
            exact ⟨q, List.mem_cons_of_mem hd hq, h1, h2⟩
      · rw [if_neg hgt]
        obtain ⟨ih1, ih2, ih3⟩ := ih a b
        refine ⟨ih1, ?_, ?_⟩
        · intro p hp
          rcases List.mem_cons.mp hp with rfl | hp
          · exact le_trans (le_of_not_lt hgt) ih1
          · exact ih2 p hp
        · rcases ih3 with heq | ⟨q, hq, h1, h2⟩
          · exact Or.inl heq
          · exact Or.inr ⟨q, List.mem_cons_of_mem hd hq, h1, h2⟩

/-- Helper: when every previous detection's IoU is strictly below a
positive threshold, smooth_one leaves the detection unmodified. -/
theorem smooth_one_below (alpha thr : ℚ) (prevs : List VideoProc.PrevDet)
    (det : VideoProc.SDet) (hthr : 0 < thr)
    (hall : ∀ p ∈ prevs, VideoProc.iou det.bbox p.bbox < thr) :
    VideoProc.smooth_one alpha thr prevs det = det := by
  obtain ⟨h1, h2, h3⟩ := bestPrev_fold_invariant det.bbox prevs 0 none
  unfold VideoProc.smooth_one VideoProc.bestPrev
  rcases h3 with heq | ⟨q, hq, hq1, hq2⟩
  · rw [heq]
  · have hr : (List.foldl (fun (acc : ℚ × Option VideoProc.PrevDet) prev =>
        if VideoProc.iou det.bbox prev.bbox > acc.1
        then (VideoProc.iou det.bbox prev.bbox, some prev) else acc) (0, none) prevs)
        = (VideoProc.iou det.bbox q.bbox, some q) := by
      rw [Prod.ext_iff]
      exact ⟨hq1, hq2⟩
    rw [hr]
    simp only [ge_iff_le]
    rw [if_neg (not_le_of_lt (hall q hq))]

/-- Helper: when some previous detection reaches the threshold, smooth_one
smooths against a previous detection of maximum IoU (which reaches the
threshold), carrying its track id when present. -/
theorem smooth_one_match (alpha thr : ℚ) (prevs : List VideoProc.PrevDet)
    (det : VideoProc.SDet) (hthr : 0 < thr)
    (hex : ∃ p ∈ prevs, thr ≤ VideoProc.iou det.bbox p.bbox) :
    ∃ q ∈ prevs,
      (∀ p ∈ prevs, VideoProc.iou det.bbox p.bbox ≤ VideoProc.iou det.bbox q.bbox)
      ∧ thr ≤ VideoProc.iou det.bbox q.bbox
      ∧ VideoProc.smooth_one alpha thr prevs det
        = { det with
              confidence := alpha * q.confidence + (1 - alpha) * det.confidence,
              track_id := match q.track_id with
                          | some t => some t
                          | none => det.track_id } := by
  obtain ⟨h1, h2, h3⟩ := bestPrev_fold_invariant det.bbox prevs 0 none
  obtain ⟨p0, hp0, hp0t⟩ := hex
  rcases h3 with heq | ⟨q, hq, hq1, hq2⟩
  · exfalso
    have := h2 p0 hp0
    rw [heq] at this
    exact absurd (lt_of_lt_of_le hthr (le_trans hp0t this)) (lt_irrefl 0)
  · have hmaxq : thr ≤ VideoProc.iou det.bbox q.bbox := by
      rw [← hq1]
      exact le_trans hp0t (h2 p0 hp0)
    refine ⟨q, hq, ?_, hmaxq, ?_⟩
    · intro p hp
      rw [← hq1]
      exact h2 p hp
    · unfold VideoProc.smooth_one VideoProc.bestPrev
      have hr : (List.foldl (fun (acc : ℚ × Option VideoProc.PrevDet) prev =>
          if VideoProc.iou det.bbox prev.bbox > acc.1
          then (VideoProc.iou det.bbox prev.bbox, some prev) else acc) (0, none) prevs)
          = (VideoProc.iou det.bbox q.bbox, some q) := by
        rw [Prod.ext_iff]
        exact ⟨hq1, hq2⟩
      rw [hr]
      simp only [ge_iff_le]
      rw [if_pos hmaxq]

/-- C7 counterexample: two consecutive process_frame calls on the same
session with the claim's own scenario (same bbox across frames, IoU 1 at
or above the default 0.3 threshold, previous confidence 0.8 and track id 5,
current confidence 0.4 and track id 7).  The second frame's output keeps
confidence 0.4 and track id 7 — not the claimed EMA 0.6*0.8+0.4*0.4 = 0.64
and carried track id 5 — because process_frame never invokes
_smooth_confidence. -/
theorem c7_counterexample :
    ((VideoProc.process_frame
        (VideoProc.process_frame VideoProc.initState [VideoProc.c7FrameOneDet] 100 100).2
        [VideoProc.c7FrameTwoDet] 100 100).1.detections.map
          (fun d => (d.confidence, d.track_id))
        = [(4/10, 7)])
      ∧ (4:ℚ)/10 ≠ (6/10) * (8/10) + (1 - 6/10) * (4/10)
      ∧ (3:ℚ)/10 ≤ VideoProc.iou ⟨0, 0, 10, 10⟩ ⟨0, 0, 10, 10⟩ := by
  refine ⟨?_, by norm_num, ?_⟩
  · simp [VideoProc.process_frame, VideoProc.c7FrameTwoDet]
  · have h : VideoProc.iou ⟨0, 0, 10, 10⟩ ⟨0, 0, 10, 10⟩ = 1 := by
      norm_num [VideoProc.iou, max_def, min_def]
    rw [h]
    norm_num

/-- C7 amended: _smooth_confidence's per-detection behaviour is as the
claim describes — below-threshold maxima leave the detection unmodified,
and when some previous detection reaches the threshold, smoothing uses a
maximum-IoU previous detection, taking the EMA confidence and carrying its
track id when present — but process_frame never calls it: every detection
flowing through process_frame keeps the model's confidence and track id
(with their defaults) unchanged. -/
theorem c7_tracker (alpha thr : ℚ) (prevs : List VideoProc.PrevDet)
    (det : VideoProc.SDet) (st : VideoProc.VPState)
    (mdets : List VideoProc.MDet) (frame_h frame_w : ℕ) (hthr : 0 < thr) :
    ((∀ p ∈ prevs, VideoProc.iou det.bbox p.bbox < thr) →
        VideoProc.smooth_one alpha thr prevs det = det)
      ∧ ((∃ p ∈ prevs, thr ≤ VideoProc.iou det.bbox p.bbox) →
        ∃ q ∈ prevs,
          (∀ p ∈ prevs, VideoProc.iou det.bbox p.bbox ≤ VideoProc.iou det.bbox q.bbox)
          ∧ thr ≤ VideoProc.iou det.bbox q.bbox
          ∧ VideoProc.smooth_one alpha thr prevs det
            = { det with
                  confidence := alpha * q.confidence + (1 - alpha) * det.confidence,
                  track_id := match q.track_id with
                              | some t => some t
                              | none => det.track_id })
      ∧ (VideoProc.process_frame st mdets frame_h frame_w).1.detections.map
          (fun d => d.confidence) = mdets.map (fun d => d.confidence.getD 0)
      ∧ (VideoProc.process_frame st mdets frame_h frame_w).1.detections.map
          (fun d => d.track_id) = mdets.map (fun d => d.track_id.getD 0) := by
  refine ⟨smooth_one_below alpha thr prevs det hthr,
    smooth_one_match alpha thr prevs det hthr, ?_, ?_⟩
  · simp only [VideoProc.process_frame, List.map_map]
    rfl
  · simp only [VideoProc.process_frame, List.map_map]
    rfl

/-- C7 witness: the amended statement instantiated with the defaults
(alpha 0.6, threshold 0.3) on the claim's concrete two-frame scene. -/
theorem c7_tracker_witness :
    ((∀ p ∈ [VideoProc.c7PrevDet],
        VideoProc.iou VideoProc.c7CurDet.bbox p.bbox < 3/10) →
        VideoProc.smooth_one (6/10) (3/10) [VideoProc.c7PrevDet] VideoProc.c7CurDet
          = VideoProc.c7CurDet)
      ∧ ((∃ p ∈ [VideoProc.c7PrevDet],
          (3:ℚ)/10 ≤ VideoProc.iou VideoProc.c7CurDet.bbox p.bbox) →
        ∃ q ∈ [VideoProc.c7PrevDet],
          (∀ p ∈ [VideoProc.c7PrevDet],
            VideoProc.iou VideoProc.c7CurDet.bbox p.bbox
              ≤ VideoProc.iou VideoProc.c7CurDet.bbox q.bbox)
          ∧ (3:ℚ)/10 ≤ VideoProc.iou VideoProc.c7CurDet.bbox q.bbox
          ∧ VideoProc.smooth_one (6/10) (3/10) [VideoProc.c7PrevDet] VideoProc.c7CurDet
            = { VideoProc.c7CurDet with
                  confidence := (6/10) * q.confidence
                    + (1 - 6/10) * VideoProc.c7CurDet.confidence,
                  track_id := match q.track_id with
                              | some t => some t
                              | none => VideoProc.c7CurDet.track_id })
      ∧ (VideoProc.process_frame VideoProc.initState [VideoProc.c7FrameTwoDet] 100 100).1.detections.map
          (fun d => d.confidence)
          = [VideoProc.c7FrameTwoDet].map (fun d => d.confidence.getD 0)
      ∧ (VideoProc.process_frame VideoProc.initState [VideoProc.c7FrameTwoDet] 100 100).1.detections.map
          (fun d => d.track_id)
          = [VideoProc.c7FrameTwoDet].map (fun d => d.track_id.getD 0) :=
  c7_tracker (6/10) (3/10) [VideoProc.c7PrevDet] VideoProc.c7CurDet
    VideoProc.initState [VideoProc.c7FrameTwoDet] 100 100 (by norm_num)

/-- Helper: the needle is a substring where the split is explicit. -/
theorem isSubstr_cover (a n b : String) : Forensic.IsSubstr n (a ++ (n ++ b)) :=
  ⟨a, b, rfl⟩

/-- Helper: every string is a substring of itself. -/
theorem isSubstr_refl (n : String) : Forensic.IsSubstr n n :=
  ⟨"", "", by simp⟩

/-- Helper: substring containment survives prepending. -/
theorem isSubstr_appl (n s t : String) (h : Forensic.IsSubstr n t) :
    Forensic.IsSubstr n (s ++ t) := by
  obtain ⟨a, b, hab⟩ := h
  exact ⟨s ++ a, b, by rw [hab, String.append_assoc]⟩

/-- Helper: substring containment survives appending. -/
theorem isSubstr_appr (n s t : String) (h : Forensic.IsSubstr n s) :
    Forensic.IsSubstr n (s ++ t) := by
  obtain ⟨a, b, hab⟩ := h
  refine ⟨a, b ++ t, ?_⟩
  rw [hab, String.append_assoc, String.append_assoc]

/-- Helper: "\n\n".join on a six-element list, unfolded. -/
theorem intercalate_six (s a b c d e f : String) :
    String.intercalate s [a, b, c, d, e, f]
      = ((((a ++ s ++ b) ++ s ++ c) ++ s ++ d) ++ s ++ e) ++ s ++ f := rfl

/-- Helper: lifting containment in each of the six joined sections to the
whole report. -/
theorem substr_six_1 (sep a b c d e f n : String) (h : Forensic.IsSubstr n a) :
    Forensic.IsSubstr n (((((a ++ sep ++ b) ++ sep ++ c) ++ sep ++ d) ++ sep ++ e) ++ sep ++ f) := by
  apply isSubstr_appr
  apply isSubstr_appr
  apply isSubstr_appr
  apply isSubstr_appr
  apply isSubstr_appr
  apply isSubstr_appr
  apply isSubstr_appr
  apply isSubstr_appr
  apply isSubstr_appr
  apply isSubstr_appr
  exact h

/-- Helper: lifting containment in the second section. -/
theorem substr_six_2 (sep a b c d e f n : String) (h : Forensic.IsSubstr n b) :
    Forensic.IsSubstr n (((((a ++ sep ++ b) ++ sep ++ c) ++ sep ++ d) ++ sep ++ e) ++ sep ++ f) := by
  apply isSubstr_appr
  apply isSubstr_appr
  apply isSubstr_appr
  apply isSubstr_appr
  apply isSubstr_appr
  apply isSubstr_appr
  apply isSubstr_appr
  apply isSubstr_appr
  exact isSubstr_appl n _ b h

/-- Helper: lifting containment in the third section. -/
theorem substr_six_3 (sep a b c d e f n : String) (h : Forensic.IsSubstr n c) :
    Forensic.IsSubstr n (((((a ++ sep ++ b) ++ sep ++ c) ++ sep ++ d) ++ sep ++ e) ++ sep ++ f) := by
  apply isSubstr_appr
  apply isSubstr_appr
  apply isSubstr_appr
  apply isSubstr_appr
  apply isSubstr_appr
  apply isSubstr_appr
  exact isSubstr_appl n _ c h

/-- Helper: lifting containment in the fourth section. -/
theorem substr_six_4 (sep a b c d e f n : String) (h : Forensic.IsSubstr n d) :
    Forensic.IsSubstr n (((((a ++ sep ++ b) ++ sep ++ c) ++ sep ++ d) ++ sep ++ e) ++ sep ++ f) := by
  apply isSubstr_appr
  apply isSubstr_appr
  apply isSubstr_appr
  apply isSubstr_appr
  exact isSubstr_appl n _ d h

/-- Helper: lifting containment in the fifth section. -/
theorem substr_six_5 (sep a b c d e f n : String) (h : Forensic.IsSubstr n e) :
    Forensic.IsSubstr n (((((a ++ sep ++ b) ++ sep ++ c) ++ sep ++ d) ++ sep ++ e) ++ sep ++ f) := by
  apply isSubstr_appr
  apply isSubstr_appr
  exact isSubstr_appl n _ e h

/-- Helper: lifting containment in the sixth section. -/
theorem substr_six_6 (sep a b c d e f n : String) (h : Forensic.IsSubstr n f) :
    Forensic.IsSubstr n (((((a ++ sep ++ b) ++ sep ++ c) ++ sep ++ d) ++ sep ++ e) ++ sep ++ f) :=
  isSubstr_appl n _ f h

/-- Helper: the length of "=" * 80. -/
theorem eq80_length : Forensic.eq80.length = 80 := by decide

/-- Helper: whatever the detections, the executive summary starts with its
fixed header. -/
theorem exec_header_prefix (nds : List Forensic.NDet) (ts : String) :
    ∃ r, Forensic.generate_executive_summary nds ts
      = ((Forensic.eq80 ++ "\n1. EXECUTIVE SUMMARY\n") ++ Forensic.eq80) ++ r := by
  unfold Forensic.generate_executive_summary
  cases h : nds.isEmpty with
  | true =>
      simp only [h, if_true]
      exact ⟨_, rfl⟩
  | false =>
      simp only [h, Bool.false_eq_true, if_false]
      exact ⟨_, by simp only [String.append_assoc]; rfl⟩

/-- Helper: a string is a substring of itself followed by anything. -/
theorem isSubstr_prefix (n t : String) : Forensic.IsSubstr n (n ++ t) :=
  ⟨"", t, by simp⟩

/-- C5: generate_report is total on every batch (non-dict entries and
non-numeric fields included) and always returns a string of positive
length; whenever the try-block fails, the result is exactly the
fixed-format error report, which contains the error message and the
generation timestamp; and the empty batch's report contains the fixed
no-findings paragraph and all six section headers. -/
theorem c5_generate_report (now : String) (timestamp : Option String)
    (dets : List Forensic.RawDet) :
    0 < (Forensic.generate_report now timestamp dets).length
    ∧ (∀ e, Forensic.normalize_detections dets = Except.error e →
        Forensic.generate_report now timestamp dets
            = Forensic.generate_error_report now e
        ∧ Forensic.IsSubstr e (Forensic.generate_error_report now e)
        ∧ Forensic.IsSubstr now (Forensic.generate_error_report now e))
    ∧ (dets = [] →
        Forensic.IsSubstr Forensic.noFindingsText
          (Forensic.generate_report now timestamp dets)
        ∧ Forensic.IsSubstr "\n1. EXECUTIVE SUMMARY\n"
          (Forensic.generate_report now timestamp dets)
        ∧ Forensic.IsSubstr "\n2. FORENSIC OBSERVATION LOG\n"
          (Forensic.generate_report now timestamp dets)
        ∧ Forensic.IsSubstr "\n3. BEHAVIORAL INTERPRETATION & THREAT ASSESSMENT\n"
          (Forensic.generate_report now timestamp dets)
        ∧ Forensic.IsSubstr "\n4. EVIDENTIAL CONFIDENCE ANALYSIS\n"
          (Forensic.generate_report now timestamp dets)
        ∧ Forensic.IsSubstr "\n5. SCENE CONTEXTUALIZATION\n"
          (Forensic.generate_report now timestamp dets)
        ∧ Forensic.IsSubstr "\n6. LIMITATIONS & DISCLAIMER\n"
          (Forensic.generate_report now timestamp dets)) := by
  refine ⟨?_, ?_, ?_⟩
  · cases hn : Forensic.normalize_detections dets with
    | error e =>
        simp only [Forensic.generate_report, hn]
        simp only [Forensic.generate_error_report, String.length_append, eq80_length]
        omega
    | ok nds =>
        simp only [Forensic.generate_report, hn]
        rw [intercalate_six]
        obtain ⟨r, hr⟩ := exec_header_prefix nds (timestamp.getD now)
        rw [hr]
        simp only [String.length_append, eq80_length]
        omega
  · intro e he
    refine ⟨by simp only [Forensic.generate_report, he], ?_, ?_⟩
    · unfold Forensic.generate_error_report
      apply isSubstr_appl
      exact isSubstr_cover _ e _
    · unfold Forensic.generate_error_report
      apply isSubstr_appl
      apply isSubstr_appl
      apply isSubstr_appl
      apply isSubstr_appl
      apply isSubstr_appl
      exact isSubstr_cover _ now _
  · intro hd
    subst hd
    simp only [Forensic.generate_report, Forensic.normalize_detections,
      intercalate_six, Forensic.generate_executive_summary,
      Forensic.generate_forensic_observation_log,
      Forensic.generate_behavioral_interpretation,
      Forensic.generate_evidential_confidence_analysis,
      Forensic.generate_scene_contextualization,
      Forensic.generate_limitations_disclaimer,
      List.isEmpty_nil, if_true, String.append_assoc]
    refine ⟨?_, ?_, ?_, ?_, ?_, ?_, ?_⟩
    all_goals repeat' (first | exact isSubstr_prefix _ _ | apply isSubstr_appl)

/-- C5 witness: the guarantees instantiated on the empty batch (no-findings
report) and on a batch whose record carries a non-numeric confidence (the
error report path), with the hypotheses discharged by evaluation. -/
theorem c5_generate_report_witness :
    0 < (Forensic.generate_report "T0" none []).length
    ∧ Forensic.IsSubstr Forensic.noFindingsText (Forensic.generate_report "T0" none [])
    ∧ Forensic.IsSubstr "\n6. LIMITATIONS & DISCLAIMER\n"
        (Forensic.generate_report "T0" none [])
    ∧ Forensic.generate_report "T0" none Forensic.c5BadInput
        = Forensic.generate_error_report "T0" "could not convert string to float: x" :=
  ⟨(c5_generate_report "T0" none []).1,
   ((c5_generate_report "T0" none []).2.2 rfl).1,
   ((c5_generate_report "T0" none []).2.2 rfl).2.2.2.2.2.2,
   ((c5_generate_report "T0" none Forensic.c5BadInput).2.1
     "could not convert string to float: x" rfl).1⟩

/-- Helper: strictly between the edges, the try-block reduces to the
overflow test on the scaled logit: overflow yields the OverflowError,
otherwise the clamped sigmoid value. -/
theorem calibrate_body_split (temp_scale conf : ℝ)
    (h0 : ¬ conf ≤ 0) (h1 : ¬ 1 ≤ conf) :
    Calib.calibrate_body temp_scale conf
      = (if 710 ≤ -Real.log (conf / (1 - conf)) / max (1/1000000) temp_scale
         then Except.error "OverflowError: math range error"
         else Except.ok (max 0 (min 1 (1 / (1 + Real.exp
           (-Real.log (conf / (1 - conf)) / max (1/1000000) temp_scale)))))) := by
  have hc : 0 < conf := lt_of_not_le h0
  have hu : 0 < 1 - conf := by
    have := lt_of_not_le h1
    linarith
  have hq : 0 < conf / (1 - conf) := div_pos hc hu
  have hM : ¬ (max ((1:ℝ)/1000000) temp_scale = 0) :=
    ne_of_gt (lt_of_lt_of_le (by norm_num) (le_max_left _ _))
  rw [Calib.calibrate_body, if_neg h0, if_neg h1, Calib.rdiv, if_neg (ne_of_gt hu)]
  show (match Calib.rlog (conf / (1 - conf)) with
    | Except.error e => Except.error e
    | Except.ok logit =>
      match Calib.rdiv (-logit) (max (1/1000000) temp_scale) with
      | Except.error e => Except.error e
      | Except.ok sc =>
        match Calib.rexp sc with
        | Except.error e => Except.error e
        | Except.ok ex =>
          match Calib.rdiv 1 (1 + ex) with
          | Except.error e => Except.error e
          | Except.ok scaled => Except.ok (max 0 (min 1 scaled))) = _
  rw [Calib.rlog, if_neg (not_le_of_lt hq)]
  show (match Calib.rdiv (-Real.log (conf / (1 - conf))) (max (1/1000000) temp_scale) with
    | Except.error e => Except.error e
    | Except.ok sc =>
      match Calib.rexp sc with
      | Except.error e => Except.error e
      | Except.ok ex =>
        match Calib.rdiv 1 (1 + ex) with
        | Except.error e => Except.error e
        | Except.ok scaled => Except.ok (max 0 (min 1 scaled))) = _
  rw [Calib.rdiv, if_neg hM]
  show (match Calib.rexp (-Real.log (conf / (1 - conf)) / max (1/1000000) temp_scale) with
    | Except.error e => Except.error e
    | Except.ok ex =>
      match Calib.rdiv 1 (1 + ex) with
      | Except.error e => Except.error e
      | Except.ok scaled => Except.ok (max 0 (min 1 scaled))) = _
  rw [Calib.rexp]
  by_cases hov : (710:ℝ) ≤ -Real.log (conf / (1 - conf)) / max (1/1000000) temp_scale
  · rw [if_pos hov, if_pos hov]
  · rw [if_neg hov]
    show (match Calib.rdiv 1 (1 + Real.exp
        (-Real.log (conf / (1 - conf)) / max (1/1000000) temp_scale)) with
      | Except.error e => Except.error e
      | Except.ok scaled => Except.ok (max 0 (min 1 scaled))) = _
    rw [Calib.rdiv, if_neg (ne_of_gt (by positivity)), if_neg hov]

/-- Helper: an ok result of the try-block always equals the closed-form
success-path formula. -/
theorem calibrate_body_ok (temp_scale conf v : ℝ)
    (h : Calib.calibrate_body temp_scale conf = Except.ok v) :
    v = Calib.calibrate_formula temp_scale conf := by
  by_cases h0 : conf ≤ 0
  · rw [Calib.calibrate_body, if_pos h0] at h
    rw [Calib.calibrate_formula, if_pos h0]
    injection h with h'
    exact h'.symm
  · by_cases h1 : 1 ≤ conf
    · rw [Calib.calibrate_body, if_neg h0, if_pos h1] at h
      rw [Calib.calibrate_formula, if_neg h0, if_pos h1]
      injection h with h'
      exact h'.symm
    · rw [calibrate_body_split temp_scale conf h0 h1] at h
      by_cases hov : (710:ℝ) ≤ -Real.log (conf / (1 - conf)) / max (1/1000000) temp_scale
      · rw [if_pos hov] at h
        exact absurd h (by simp)
      · rw [if_neg hov] at h
        rw [Calib.calibrate_formula, if_neg h0, if_neg h1]
        injection h with h'
        exact h'.symm

/-- Helper: at temperature 1e-6 and confidence 1/2 the scaled logit is 0,
so the try-block succeeds with value 1/2. -/
theorem calibrate_body_at_half :
    Calib.calibrate_body (1/1000000) (1/2) = Except.ok (1/2) := by
  have harg : -Real.log ((1:ℝ)/2 / (1 - 1/2)) / max ((1:ℝ)/1000000) (1/1000000) = 0 := by
    have h2 : ((1:ℝ)/2 / (1 - 1/2)) = 1 := by norm_num
    rw [h2, Real.log_one]
    simp
  rw [calibrate_body_split (1/1000000) (1/2) (by norm_num) (by norm_num), harg]
  rw [if_neg (by norm_num), Real.exp_zero]
  norm_num [max_def, min_def]

/-- Helper: _calibrate_conf always returns a value, and it lies in [0, 1]:
an ok body result is the success formula, and on any failure the fallback's
division by max(1e-6, T) > 0 succeeds with a clamped value. -/
theorem calibrate_conf_total (temp_scale conf : ℝ) :
    ∃ w, Calib.calibrate_conf temp_scale conf = Except.ok w ∧ 0 ≤ w ∧ w ≤ 1 := by
  unfold Calib.calibrate_conf
  cases hb : Calib.calibrate_body temp_scale conf with
  | ok v =>
      refine ⟨v, rfl, ?_, ?_⟩
      · rw [calibrate_body_ok temp_scale conf v hb]
        exact calibrate_formula_nonneg temp_scale conf
      · rw [calibrate_body_ok temp_scale conf v hb]
        exact calibrate_formula_le_one temp_scale conf
  | error e =>
      unfold Calib.calibrate_fallback Calib.rdiv
      rw [if_neg (ne_of_gt (lt_of_lt_of_le (by norm_num : (0:ℝ) < 1/1000000)
        (le_max_left _ _)))]
      exact ⟨_, rfl, le_max_left 0 _, max_le zero_le_one (min_le_left 1 _)⟩

/-- Helper: the nonpositive edge of _calibrate_conf yields ok 0. -/
theorem calibrate_conf_of_nonpos (temp_scale conf : ℝ) (h : conf ≤ 0) :
    Calib.calibrate_conf temp_scale conf = Except.ok 0 := by
  unfold Calib.calibrate_conf
  rw [show Calib.calibrate_body temp_scale conf = Except.ok 0 from
    by rw [Calib.calibrate_body, if_pos h]]

/-- Helper: the at-least-one edge of _calibrate_conf yields ok 1. -/
theorem calibrate_conf_of_one_le (temp_scale conf : ℝ) (h : 1 ≤ conf) :
    Calib.calibrate_conf temp_scale conf = Except.ok 1 := by
  unfold Calib.calibrate_conf
  rw [show Calib.calibrate_body temp_scale conf = Except.ok 1 from
    by rw [Calib.calibrate_body, if_neg (by linarith), if_pos h]]

/-- C8 counterexample: at the configured temperature T = 1e-6 > 0 the
program is not monotone on [0, 1]: at confidence 1/4 the scaled logit
overflows math.exp and the linear fallback clamps 0.25/1e-6 to 1, while at
confidence 1/2 the try-block succeeds with 0.5 — so 1/4 ≤ 1/2 but the
calibrated value drops from 1 to 1/2. -/
theorem c8_counterexample :
    Calib.calibrate_conf (1/1000000) (1/4) = Except.ok 1
    ∧ Calib.calibrate_conf (1/1000000) (1/2) = Except.ok (1/2)
    ∧ (0:ℝ) < 1/1000000
    ∧ (1:ℝ)/4 ≤ 1/2
    ∧ ¬ ((1:ℝ) ≤ 1/2) := by
  refine ⟨?_, ?_, by norm_num, by norm_num, by norm_num⟩
  · unfold Calib.calibrate_conf
    rw [calibrate_body_overflow]
    unfold Calib.calibrate_fallback Calib.rdiv
    rw [if_neg (ne_of_gt (lt_of_lt_of_le (by norm_num : (0:ℝ) < 1/1000000)
      (le_max_left _ _))), max_self]
    norm_num [max_def, min_def]
  · unfold Calib.calibrate_conf
    rw [calibrate_body_at_half]

/-- C8 amended: over the failure-explicit model of _calibrate_conf, for
every temperature T > 0 the result is always an ok value in [0, 1], the
edges conf ≤ 0 and conf ≥ 1 map to ok 0 and ok 1 (in particular at 0 and
1), and calibration is monotone non-decreasing in the confidence whenever
the try-block succeeds at both confidences (no math.exp overflow); the
overflow-and-fallback path breaks monotonicity for small T, as the
counterexample shows, so the claim's unrestricted monotonicity fails on
the program. -/
theorem c8_calibrate_conf_props (temp_scale conf c₁ c₂ v₁ v₂ : ℝ)
    (hT : 0 < temp_scale) (hle : c₁ ≤ c₂)
    (h₁ : Calib.calibrate_body temp_scale c₁ = Except.ok v₁)
    (h₂ : Calib.calibrate_body temp_scale c₂ = Except.ok v₂) :
    (∃ w, Calib.calibrate_conf temp_scale conf = Except.ok w ∧ 0 ≤ w ∧ w ≤ 1)
    ∧ v₁ ≤ v₂
    ∧ Calib.calibrate_conf temp_scale 0 = Except.ok 0
    ∧ Calib.calibrate_conf temp_scale 1 = Except.ok 1
    ∧ (conf ≤ 0 → Calib.calibrate_conf temp_scale conf = Except.ok 0)
    ∧ (1 ≤ conf → Calib.calibrate_conf temp_scale conf = Except.ok 1) := by
  refine ⟨calibrate_conf_total temp_scale conf, ?_,
    calibrate_conf_of_nonpos temp_scale 0 (le_refl 0),
    calibrate_conf_of_one_le temp_scale 1 (le_refl 1),
    fun h => calibrate_conf_of_nonpos temp_scale conf h,
    fun h => calibrate_conf_of_one_le temp_scale conf h⟩
  rw [calibrate_body_ok temp_scale c₁ v₁ h₁, calibrate_body_ok temp_scale c₂ v₂ h₂]
  exact calibrate_formula_mono temp_scale c₁ c₂ hle

/-- C8 witness: the amended properties instantiated at temperature 1,
confidence 1/2, and the edge confidences 0 ≤ 1, whose try-block results
ok 0 and ok 1 are discharged by evaluation. -/
theorem c8_calibrate_conf_props_witness :
    (∃ w, Calib.calibrate_conf 1 (1/2) = Except.ok w ∧ 0 ≤ w ∧ w ≤ 1)
    ∧ (0:ℝ) ≤ 1
    ∧ Calib.calibrate_conf 1 0 = Except.ok 0
    ∧ Calib.calibrate_conf 1 1 = Except.ok 1
    ∧ ((1:ℝ)/2 ≤ 0 → Calib.calibrate_conf 1 (1/2) = Except.ok 0)
    ∧ ((1:ℝ) ≤ 1/2 → Calib.calibrate_conf 1 (1/2) = Except.ok 1) :=
  c8_calibrate_conf_props 1 (1/2) 0 1 0 1 (by norm_num) (by norm_num)
    (by rw [Calib.calibrate_body, if_pos (le_refl (0:ℝ))])
    (by rw [Calib.calibrate_body, if_neg (by norm_num), if_pos (le_refl (1:ℝ))])
